import Mathlib

/-!
Verification of the billing service webhook-reconciliation and lifecycle logic.

The Python source is shallowly embedded: the relational store is a record of
row lists, SQL upserts become list transformations, datetimes become integer
epoch seconds, and every external provider SDK call (payment provider API,
HMAC library, JSON parsing) is an oracle passed in as a function parameter.
Python truthiness ("x or y", "if not x") is modeled explicitly by the pyOr
and truthy helpers.  Money is in integer cents throughout, as in the source.
-/

namespace Billing

/-- Python truthiness of an optional string: None and the empty string are falsy. -/
def truthyS : Option String → Bool
  | none => false
  | some s => s ≠ ""

/-- Python truthiness of an optional integer: None and 0 are falsy. -/
def truthyI : Option Int → Bool
  | none => false
  | some i => i ≠ 0

/-- Python truthiness of an optional natural id: None and 0 are falsy. -/
def truthyN : Option Nat → Bool
  | none => false
  | some n => n ≠ 0

/-- Python "a or b" on optional strings. -/
def pyOrS (a b : Option String) : Option String :=
  if truthyS a then a else b

/-- Python "a or b" on optional integers. -/
def pyOrI (a b : Option Int) : Option Int :=
  if truthyI a then a else b

/-- Python "a or b" on optional natural ids. -/
def pyOrN (a b : Option Nat) : Option Nat :=
  if truthyN a then a else b

/-- Python "a or b" where a is a plain int (0 falsy). -/
def pyOrInt (a b : Int) : Int :=
  if a = 0 then b else a

/-! String primitives are reimplemented by structural recursion over the
character list so that concrete witnesses evaluate inside the kernel;
they agree with the library routines on the ASCII inputs the service
handles. -/

/-- ASCII lowercase of one character. -/
def lowerChar (c : Char) : Char :=
  if c = 'A' then 'a' else if c = 'B' then 'b' else if c = 'C' then 'c'
  else if c = 'D' then 'd' else if c = 'E' then 'e' else if c = 'F' then 'f'
  else if c = 'G' then 'g' else if c = 'H' then 'h' else if c = 'I' then 'i'
  else if c = 'J' then 'j' else if c = 'K' then 'k' else if c = 'L' then 'l'
  else if c = 'M' then 'm' else if c = 'N' then 'n' else if c = 'O' then 'o'
  else if c = 'P' then 'p' else if c = 'Q' then 'q' else if c = 'R' then 'r'
  else if c = 'S' then 's' else if c = 'T' then 't' else if c = 'U' then 'u'
  else if c = 'V' then 'v' else if c = 'W' then 'w' else if c = 'X' then 'x'
  else if c = 'Y' then 'y' else if c = 'Z' then 'z' else c

/-- ASCII lowercase of a string (Python str.lower). -/
def strLower (s : String) : String := ⟨s.data.map lowerChar⟩

/-- Whitespace characters stripped by Python str.strip. -/
def isSpaceChar (c : Char) : Bool :=
  c = ' ' ∨ c = '\t' ∨ c = '\n' ∨ c = '\r'

/-- Python str.strip. -/
def strTrim (s : String) : String :=
  ⟨((s.data.dropWhile isSpaceChar).reverse.dropWhile isSpaceChar).reverse⟩

/-- Split a character list at every occurrence of the separator. -/
def splitChar (sep : Char) : List Char → List (List Char)
  | [] => [[]]
  | c :: rest =>
    let r := splitChar sep rest
    if c = sep then [] :: r
    else
      match r with
      | h :: t => (c :: h) :: t
      | [] => [[c]]

/-- Python str.split with a one-character separator. -/
def strSplitOnChar (sep : Char) (s : String) : List String :=
  (splitChar sep s.data).map (fun l => ⟨l⟩)

/-- Whether the first list is a prefix of the second. -/
def isPrefixList : List Char → List Char → Bool
  | [], _ => true
  | _ :: _, [] => false
  | a :: as, b :: bs => a = b && isPrefixList as bs

/-- Python str.startswith. -/
def strStartsWith (s pre : String) : Bool :=
  isPrefixList pre.data s.data

/-- The numeric value of a decimal digit character. -/
def digitVal? (c : Char) : Option Nat :=
  if c = '0' then some 0 else if c = '1' then some 1 else if c = '2' then some 2
  else if c = '3' then some 3 else if c = '4' then some 4 else if c = '5' then some 5
  else if c = '6' then some 6 else if c = '7' then some 7 else if c = '8' then some 8
  else if c = '9' then some 9 else none

/-- Parse an unsigned decimal numeral. -/
def natOfDigits (l : List Char) : Option Nat :=
  match l with
  | [] => none
  | _ =>
    l.foldl
      (fun acc c =>
        match acc, digitVal? c with
        | some a, some d => some (a * 10 + d)
        | _, _ => none)
      (some 0)

/-- Parse a decimal integer with an optional leading minus sign
(Python int applied to a string). -/
def strToInt? (s : String) : Option Int :=
  match s.data with
  | [] => none
  | '-' :: rest => (natOfDigits rest).map (fun n => -(n : Int))
  | l => (natOfDigits l).map (fun n => (n : Int))

/-- SQL COALESCE(a, b): first non-NULL argument. -/
def coalesce {α : Type} (a b : Option α) : Option α :=
  match a with
  | some x => some x
  | none => b

/-- SQL NULLIF(x, 0) as used by the paddle invoice upsert. -/
def nullifZero (x : Int) : Option Int :=
  if x = 0 then none else some x

/-- Update every list element satisfying p by f (SQL UPDATE ... WHERE p). -/
def updateWhere {α : Type} (l : List α) (p : α → Bool) (f : α → α) : List α :=
  l.map fun x => if p x then f x else x

/-- First row maximizing the key (SQL ORDER BY key DESC LIMIT 1). -/
def latestBy {α : Type} (l : List α) (key : α → Int) : Option α :=
  l.foldl
    (fun acc x =>
      match acc with
      | none => some x
      | some a => if key x > key a then some x else acc)
    none

/-- Last path segment of a dotted event type (Python event_type.split at dots, last element). -/
def lastSegment (t : String) : String :=
  ((strSplitOnChar '.' t).getLast?).getD ""

/-- Midnight (UTC) of the day containing t, for date_trunc of day in the usage reset. -/
def dayTrunc (t : Int) : Int :=
  86400 * (t / 86400)

/-! ## Refund proration (billing_routes.py, calculate_prorated_amount, lines 261-275)

datetime values are epoch seconds; datetime.utcnow() is the explicit now
argument.  The float expression int(amount_paid_cents * (remaining / total))
is modeled exactly as truncated integer division Int.tdiv, which agrees with
the float computation up to floating rounding (the claims tolerate that). -/

/-- Straight-line time proration of a paid amount over the remaining period,
clamped to the range from 0 to the amount paid (source lines 261-275). -/
def calculate_prorated_amount (amount_paid_cents : Int)
    (period_start period_end : Option Int) (now : Int) : Int :=
  match period_start, period_end with
  | some ps, some pe =>
    if amount_paid_cents = 0 then 0
    else
      let total_seconds := pe - ps
      if total_seconds ≤ 0 then 0
      else
        let remaining_seconds := pe - now
        if remaining_seconds ≤ 0 then 0
        else
          let prorated := Int.tdiv (amount_paid_cents * remaining_seconds) total_seconds
          min (max prorated 0) amount_paid_cents
  | _, _ => 0

/-- Refund mode normalization and amount selection from the immediate
cancellation flow (billing_routes.py lines 406-418).  Returns the normalized
mode together with the computed refund amount. -/
def compute_refund_amount (refund_mode : Option String) (amount_paid : Int)
    (period_start period_end : Option Int) (now : Int) : String × Int :=
  let m0 := refund_mode.getD "none"
  let normalized_mode :=
    if m0 = "full" ∨ m0 = "prorated" ∨ m0 = "none" then m0 else "none"
  if normalized_mode = "full" then (normalized_mode, amount_paid)
  else if normalized_mode = "prorated" then
    (normalized_mode, calculate_prorated_amount amount_paid period_start period_end now)
  else (normalized_mode, 0)

/-! ## Paddle webhook signature verification (paddle_webhook_routes.py lines 36-93)

The HMAC-SHA256 hex digest routine from the Python standard library is an
external collaborator; it is passed in as the oracle hmacHex, where
hmacHex secret msg is the hex digest of msg under key secret.  Raw request
bodies are strings of bytes. -/

/-- Split one header part at its first equals sign (Python split with maxsplit one). -/
def splitKV (p : String) : Option (String × String) :=
  match strSplitOnChar '=' p with
  | [] => none
  | [_] => none
  | k :: rest => some (k, String.intercalate "=" rest)

/-- Parse a Paddle-Signature header of the form ts=...;h1=... into the
timestamp value and the list of h1 digests (source lines 36-42).  The ts
value is the last ts entry, as a Python dict comprehension keeps the last
binding of a repeated key. -/
def parse_paddle_sig (header : String) : String × List String :=
  let parts := ((strSplitOnChar ';' header).map strTrim).filter (fun p => p ≠ "")
  let kvs := parts.filterMap splitKV
  let ts := ((((kvs.filter (fun kv => kv.1 = "ts")).getLast?).map Prod.snd).getD "")
  let h1s := parts.filterMap fun p =>
    if strStartsWith p "h1=" then some (p.drop 3) else none
  (ts, h1s)

/-- Paddle webhook signature check (source lines 68-93): the header must
parse, the timestamp must be within the tolerance window of the current
time, and some h1 digest must equal the HMAC-SHA256 hex digest of the
string ts, a colon, and the raw body, under the webhook secret. -/
def verify_paddle_signature (hmacHex : String → String → String) (nowSec : Int)
    (raw header secret : String) (tolerance_sec : Int) : Bool :=
  if raw = "" ∨ header = "" ∨ secret = "" then false
  else
    let (ts, h1s) := parse_paddle_sig header
    if ts = "" ∨ h1s.isEmpty then false
    else
      match strToInt? ts with
      | none => false
      | some tsInt =>
        if |nowSec - tsInt| > tolerance_sec then false
        else
          let signed_payload := ts ++ ":" ++ raw
          let expected := hmacHex secret signed_payload
          h1s.any fun h1 => expected = h1

/-! ## Usage overview arithmetic (billing_routes.py lines 1731-1781)

Python round at two decimals is modeled as rounding the scaled rational to
the nearest integer; Python rounds half to even while Mathlib round rounds
half up, a difference only at exact half-hundredth ties which none of the
proved properties depend on. -/

/-- Round a rational to two decimal places. -/
def round2 (q : ℚ) : ℚ :=
  ((round (q * 100) : ℤ) : ℚ) / 100

/-- One usage entry as stored in usage_counters. -/
structure UsageRow where
  organization_id : Nat
  usage_key : String
  used : Int
  period_start : Option Int
  period_end : Option Int
  deriving Repr, DecidableEq

/-- The per-key block returned by the usage overview. -/
structure UsageOut where
  used : Int
  limit : Option Int
  remaining : Option Int
  nextReset : Option Int
  percent : Option ℚ
  deriving Repr, DecidableEq

/-- build_usage from the usage overview endpoint (source lines 1731-1748). -/
def build_usage (entry : Option UsageRow) (limit : Option Int) : UsageOut :=
  let used := match entry with | some e => e.used | none => 0
  let next_reset := entry.bind (fun e => e.period_end)
  match limit with
  | some l =>
    if 0 ≤ l then
      { used := used, limit := some l,
        remaining := some (max (l - used) 0),
        nextReset := next_reset,
        percent := some (if 0 < l then min 100 (round2 ((used : ℚ) / (l : ℚ) * 100)) else 0) }
    else
      { used := used, limit := some l, remaining := none,
        nextReset := next_reset, percent := none }
  | none =>
    { used := used, limit := none, remaining := none,
      nextReset := next_reset, percent := none }

/-- The seats block of the usage overview (source lines 1768-1781): remaining
is the plain difference of limit and used, and percent is absent unless the
limit is strictly positive. -/
def seat_usage (seats_used : Int) (seat_limit : Option Int) : UsageOut :=
  { used := seats_used
    limit := seat_limit
    remaining :=
      match seat_limit with
      | some l => if 0 ≤ l then some (l - seats_used) else none
      | none => none
    nextReset := none
    percent :=
      match seat_limit with
      | some l => if l ≠ 0 ∧ 0 < l then some (min 100 (round2 ((seats_used : ℚ) / (l : ℚ) * 100))) else none
      | none => none }

/-! ## Data model (db/models.py)

Rows of the relational store.  DB primary keys are naturals; timestamps are
epoch seconds; bookkeeping columns created_at and updated_at are omitted from
rows except where the source reads them (checkout and scheduled-downgrade
ordering). -/

/-- A subscriptions row (db/models.py lines 128-154). -/
structure SubRow where
  id : Nat
  created_by : Option Nat
  last_updated_by : Option Nat
  billing_contact_user_id : Option Nat
  plan_id : Option Nat
  stripe_customer_id : Option String
  stripe_subscription_id : Option String
  paddle_customer_id : Option String
  paddle_subscription_id : Option String
  provider : String
  status : String
  current_period_start : Option Int
  current_period_end : Option Int
  cancel_at_period_end : Bool
  trial_end : Option Int
  interval : Option String
  deriving Repr, DecidableEq

/-- An invoices row (db/models.py lines 157-193). -/
structure InvoiceRow where
  user_id : Option Nat
  subscription_id : Option Nat
  stripe_invoice_id : Option String
  paddle_transaction_id : Option String
  paddle_invoice_id : Option String
  amount_due_cents : Int
  amount_paid_cents : Int
  currency : Option String
  invoice_pdf_url : Option String
  hosted_invoice_url : Option String
  status : Option String
  period_start : Option Int
  period_end : Option Int
  subtotal_cents : Option Int
  tax_cents : Option Int
  total_cents : Option Int
  tax_rate_percent : Option ℚ
  tax_code : Option String
  tax_jurisdiction : Option String
  deriving Repr, DecidableEq

/-- A payment_audit row (db/models.py lines 72-83). -/
structure AuditRow where
  actor_id : Option Nat
  action : String
  session_id : Option String
  ip_address : Option String
  user_agent : Option String
  deriving Repr, DecidableEq

/-- A checkout_records row; raw_session_customer is the customer field of the
stored raw session JSON, the only part of raw_session the webhooks read. -/
structure CheckoutRow where
  actor_id : Option Nat
  session_id : String
  raw_session_customer : Option String
  created_at : Int
  deriving Repr, DecidableEq

/-- A payment_methods row (db/models.py lines 195-216), stripe columns only. -/
structure PMRow where
  stripe_customer_id : Option String
  stripe_payment_method_id : String
  brand : Option String
  last4 : Option String
  exp_month : Option Int
  exp_year : Option Int
  is_default : Bool
  deriving Repr, DecidableEq

/-- A users row, restricted to the columns the billing service reads. -/
structure UserRow where
  id : Nat
  organization_id : Option Nat
  is_active : Option Bool
  deriving Repr, DecidableEq

/-- An organizations row, restricted to the columns the billing service reads. -/
structure OrgRow where
  id : Nat
  subscription_id : Option Nat
  paddle_customer_id : Option String
  deriving Repr, DecidableEq

/-- A subscription_plans row (db/models.py lines 85-125). -/
structure PlanRow where
  id : Nat
  name : String
  stripe_price_id_monthly : String
  stripe_price_id_yearly : String
  sbom_limit : Int
  project_scan_limit : Int
  scan_rate_limit : Int
  user_limit : Int
  monthly_price_cents : Int
  annual_price_cents : Int
  currency : String
  is_active : Bool
  deriving Repr, DecidableEq

/-- A scheduled_downgrades row. -/
structure SDRow where
  id : Nat
  subscription_id : Nat
  organization_id : Nat
  target_price_id : String
  created_at : Int
  deriving Repr, DecidableEq

/-- A cancellation_requests row (db/models.py lines 241-256). -/
structure CRRow where
  subscription_id : Nat
  stripe_subscription_id : String
  mode : String
  refund_mode : Option String
  refund_amount_cents : Option Int
  refund_currency : Option String
  stripe_refund_id : Option String
  stripe_invoice_id : Option String
  payment_intent_id : Option String
  deriving Repr, DecidableEq

/-- The relational store: one list per table, plus fresh-id counters for
rows inserted with auto-generated primary keys. -/
structure Store where
  billing_events : List String
  payment_audit : List AuditRow
  checkout_records : List CheckoutRow
  payment_methods : List PMRow
  users : List UserRow
  organizations : List OrgRow
  subscription_plans : List PlanRow
  subscriptions : List SubRow
  invoices : List InvoiceRow
  usage_counters : List UsageRow
  scheduled_downgrades : List SDRow
  cancellation_requests : List CRRow
  next_sub_id : Nat
  next_sd_id : Nat
  deriving Repr, DecidableEq

/-- Record a processed webhook event id (insert into billing_events). -/
def recordEvent (eid : String) (s : Store) : Store :=
  { s with billing_events := eid :: s.billing_events }

/-- Append a payment_audit row. -/
def addAudit (s : Store) (row : AuditRow) : Store :=
  { s with payment_audit := s.payment_audit ++ [row] }

/-! ## Paddle subscription upsert (paddle_webhook_routes.py lines 216-276) -/

/-- The ON CONFLICT update of upsert_subscription_strong: never let an
active status be overwritten by pending; all other updated columns
coalesce new-if-present-else-old.  status and interval arguments are the
post-normalization values (status lowercased, interval defaulted). -/
def merge_subscription_strong (old : SubRow) (actor_id : Option Nat)
    (plan_id : Option Nat) (status : String) (interval : String)
    (cps cpe : Option Int) : SubRow :=
  { old with
    status :=
      if old.status = "active" ∧ status = "pending" then old.status else status
    interval := coalesce (some interval) old.interval
    plan_id := coalesce plan_id old.plan_id
    current_period_start := coalesce cps old.current_period_start
    current_period_end := coalesce cpe old.current_period_end
    last_updated_by := coalesce actor_id old.last_updated_by
    billing_contact_user_id := coalesce actor_id old.billing_contact_user_id }

/-- Row inserted by upsert_subscription_strong when no conflict occurs. -/
def insert_subscription_strong (nid : Nat) (actor_id : Option Nat)
    (plan_id : Option Nat) (status : String) (interval : String)
    (psid : String) (cps cpe : Option Int) : SubRow :=
  { id := nid
    created_by := actor_id
    last_updated_by := actor_id
    billing_contact_user_id := actor_id
    plan_id := plan_id
    stripe_customer_id := none
    stripe_subscription_id := none
    paddle_customer_id := none
    paddle_subscription_id := some psid
    provider := "paddle"
    status := status
    current_period_start := cps
    current_period_end := cpe
    cancel_at_period_end := false
    trial_end := none
    interval := some interval }

/-- Look up a local subscription id by paddle subscription id
(paddle_webhook_routes.py lines 201-208). -/
def lookup_subscription_db_id_by_paddle_id (s : Store) (psid : String) : Option Nat :=
  (s.subscriptions.find? (fun r => r.paddle_subscription_id = some psid)).map (fun r => r.id)

/-- upsert_subscription_strong (source lines 216-276): insert a paddle
subscription row, or on conflict apply merge_subscription_strong; returns
the updated store and the local subscription id. -/
def upsert_subscription_strong (s : Store) (actor_id : Option Nat)
    (plan_id : Option Nat) (status0 : String) (interval0 : Option String)
    (paddle_subscription_id : String) (current_period_start current_period_end : Option Int) :
    Store × Option Nat :=
  let status := strLower status0
  let interval := (pyOrS interval0 (some "monthly")).getD "monthly"
  let merged :=
    updateWhere s.subscriptions
      (fun r => r.paddle_subscription_id = some paddle_subscription_id)
      (fun old => merge_subscription_strong old actor_id plan_id status interval
        current_period_start current_period_end)
  let inserted :=
    s.subscriptions ++
      [insert_subscription_strong s.next_sub_id actor_id plan_id status interval
        paddle_subscription_id current_period_start current_period_end]
  let s1 :=
    if s.subscriptions.any (fun r => r.paddle_subscription_id = some paddle_subscription_id) then
      { s with subscriptions := merged }
    else
      { s with subscriptions := inserted, next_sub_id := s.next_sub_id + 1 }
  (s1, lookup_subscription_db_id_by_paddle_id s1 paddle_subscription_id)

/-- ensure_subscription_exists_only (source lines 279-320): create a pending
skeleton row only when missing; DO NOTHING on conflict. -/
def ensure_subscription_exists_only (s : Store) (actor_id : Option Nat)
    (plan_id : Option Nat) (interval0 : Option String) (paddle_subscription_id : String) :
    Store × Option Nat :=
  let interval := (pyOrS interval0 (some "monthly")).getD "monthly"
  let inserted :=
    s.subscriptions ++
      [insert_subscription_strong s.next_sub_id actor_id plan_id "pending" interval
        paddle_subscription_id none none]
  let s1 :=
    if s.subscriptions.any (fun r => r.paddle_subscription_id = some paddle_subscription_id) then
      s
    else
      { s with subscriptions := inserted, next_sub_id := s.next_sub_id + 1 }
  (s1, lookup_subscription_db_id_by_paddle_id s1 paddle_subscription_id)

/-- link_org_subscription (source lines 323-330). -/
def link_org_subscription (s : Store) (org_id : Nat) (subscription_db_id : Nat) : Store :=
  let orgs :=
    updateWhere s.organizations (fun o => o.id = org_id)
      (fun o => { o with subscription_id := some subscription_db_id })
  { s with organizations := orgs }

/-- update_subscription_paddle_customer_id (source lines 45-65): store the
paddle customer id on the subscription, keeping an existing value. -/
def update_subscription_paddle_customer_id (s : Store)
    (subscription_db_id : Nat) (paddle_customer_id : String) : Store :=
  if subscription_db_id = 0 ∨ paddle_customer_id = "" then s
  else
    let subs :=
      updateWhere s.subscriptions (fun r => r.id = subscription_db_id)
        (fun r => { r with
          paddle_customer_id := coalesce r.paddle_customer_id (some paddle_customer_id) })
    { s with subscriptions := subs }

/-! ## Paddle invoice upsert (paddle_webhook_routes.py lines 333-432) -/

/-- The ON CONFLICT update of upsert_invoice_terminal: status is taken from
the latest event; every other updated column coalesces new-if-present-else-old;
URL and tax-code columns are not in the update list and keep their values. -/
def merge_invoice_terminal (old excluded : InvoiceRow) : InvoiceRow :=
  { old with
    subscription_id := coalesce excluded.subscription_id old.subscription_id
    paddle_invoice_id := coalesce excluded.paddle_invoice_id old.paddle_invoice_id
    currency := coalesce excluded.currency old.currency
    status := excluded.status
    amount_due_cents := excluded.amount_due_cents
    amount_paid_cents := excluded.amount_paid_cents
    period_start := coalesce excluded.period_start old.period_start
    period_end := coalesce excluded.period_end old.period_end
    subtotal_cents := coalesce excluded.subtotal_cents old.subtotal_cents
    tax_cents := coalesce excluded.tax_cents old.tax_cents
    total_cents := coalesce excluded.total_cents old.total_cents
    tax_rate_percent := coalesce excluded.tax_rate_percent old.tax_rate_percent }

/-- Row inserted by upsert_invoice_terminal: amount_due is the event total,
amount_paid is the total for a paid or completed status and zero otherwise,
and zero subtotal, tax and total are stored as NULL via NULLIF. -/
def invoice_terminal_excluded (actor_id : Option Nat) (subscription_db_id : Option Nat)
    (txid : String) (paddle_invoice_id : Option String) (status : String)
    (currency : String) (subtotal_cents tax_cents total_cents : Int)
    (tax_rate_percent : Option ℚ) (period_start period_end : Option Int) : InvoiceRow :=
  { user_id := actor_id
    subscription_id := subscription_db_id
    stripe_invoice_id := none
    paddle_transaction_id := some txid
    paddle_invoice_id := paddle_invoice_id
    amount_due_cents := total_cents
    amount_paid_cents := if status = "paid" ∨ status = "completed" then total_cents else 0
    currency := some currency
    invoice_pdf_url := none
    hosted_invoice_url := none
    status := some status
    period_start := period_start
    period_end := period_end
    subtotal_cents := nullifZero subtotal_cents
    tax_cents := nullifZero tax_cents
    total_cents := nullifZero total_cents
    tax_rate_percent := tax_rate_percent
    tax_code := none
    tax_jurisdiction := none }

/-- upsert_invoice_terminal (source lines 333-432): one invoice per paddle
transaction id, merged on conflict by merge_invoice_terminal. -/
def upsert_invoice_terminal (s : Store) (actor_id : Option Nat)
    (subscription_db_id : Option Nat) (paddle_transaction_id : String)
    (paddle_invoice_id : Option String) (status0 : String) (currency0 : String)
    (subtotal_cents tax_cents total_cents : Int) (tax_rate_percent : Option ℚ)
    (period_start period_end : Option Int) : Store :=
  let status := strLower status0
  let currency := strLower (if currency0 = "" then "usd" else currency0)
  let excluded := invoice_terminal_excluded actor_id subscription_db_id
    paddle_transaction_id paddle_invoice_id status currency
    subtotal_cents tax_cents total_cents tax_rate_percent period_start period_end
  let merged :=
    updateWhere s.invoices
      (fun r => r.paddle_transaction_id = some paddle_transaction_id)
      (fun old => merge_invoice_terminal old excluded)
  if s.invoices.any (fun r => r.paddle_transaction_id = some paddle_transaction_id) then
    { s with invoices := merged }
  else
    { s with invoices := s.invoices ++ [excluded] }

/-- update_invoice_urls (source lines 435-451): fill in missing invoice URL
columns from a fetched PDF URL, keeping existing values. -/
def update_invoice_urls (s : Store) (txid : String) (pdf_url : Option String) : Store :=
  if ¬ truthyS pdf_url then s
  else
    let invs :=
      updateWhere s.invoices (fun r => r.paddle_transaction_id = some txid)
        (fun r => { r with
          invoice_pdf_url := coalesce r.invoice_pdf_url pdf_url
          hosted_invoice_url := coalesce r.hosted_invoice_url pdf_url })
    { s with invoices := invs }

/-! ## Stripe invoice upsert (billing_routes.py lines 1088-1154)

The ON CONFLICT update overwrites every updated column with the value from
the incoming event, nulls included: there is no COALESCE in this statement. -/

/-- The ON CONFLICT update of the stripe webhook invoice upsert: every
updated column takes the incoming value unconditionally. -/
def stripe_invoice_merge (old excluded : InvoiceRow) : InvoiceRow :=
  { old with
    status := excluded.status
    amount_paid_cents := excluded.amount_paid_cents
    amount_due_cents := excluded.amount_due_cents
    currency := excluded.currency
    invoice_pdf_url := excluded.invoice_pdf_url
    hosted_invoice_url := excluded.hosted_invoice_url
    period_start := excluded.period_start
    period_end := excluded.period_end
    subtotal_cents := excluded.subtotal_cents
    tax_cents := excluded.tax_cents
    total_cents := excluded.total_cents
    tax_rate_percent := excluded.tax_rate_percent
    tax_code := excluded.tax_code
    tax_jurisdiction := excluded.tax_jurisdiction }

/-- The stripe webhook invoice upsert keyed on stripe_invoice_id. -/
def stripe_invoice_upsert (s : Store) (excluded : InvoiceRow) : Store :=
  match excluded.stripe_invoice_id with
  | some iid =>
    let merged :=
      updateWhere s.invoices (fun r => r.stripe_invoice_id = some iid)
        (fun old => stripe_invoice_merge old excluded)
    if s.invoices.any (fun r => r.stripe_invoice_id = some iid) then
      { s with invoices := merged }
    else { s with invoices := s.invoices ++ [excluded] }
  | none => { s with invoices := s.invoices ++ [excluded] }

/-! ## Provider abstraction

Every outbound SDK call (stripe library, paddle HTTP client, HMAC library)
is an oracle supplied through ProviderEnv; an Option result of none models
the call raising an exception.  Calls actually issued are accumulated in a
ProvCall trace so that theorems can state that a code path performs, or
does not perform, provider side effects. -/

/-- Python truthiness of an optional boolean. -/
def truthyB : Option Bool → Bool
  | none => false
  | some b => b

/-- Card data of a retrieved payment method. -/
structure PMInfo where
  brand : Option String
  last4 : Option String
  exp_month : Option Int
  exp_year : Option Int
  deriving Repr, DecidableEq

/-- The parts of a retrieved provider subscription object that the webhook
reads: status, cancellation flag, trial end, and the first line item with
its period window and price id.  A retrieval failure or an empty item list
is modeled as the oracle returning none, since both raise inside the same
swallowed try block. -/
structure StripeSubObj where
  status : String
  cancel_at_period_end : Bool
  trial_end : Option Int
  current_period_start : Int
  current_period_end : Int
  price_id : String
  deriving Repr, DecidableEq

/-- The payment_intent field of a provider invoice payload: absent, a bare
id string, or an expanded object with an optional id. -/
inductive PIField where
  | missing : PIField
  | asStr : String → PIField
  | asObj : Option String → PIField
  deriving Repr, DecidableEq

/-- A provider invoice payload as consumed by the cancellation flow. -/
structure StripeInvoiceData where
  id : Option String
  status : Option String
  amount_paid : Option Int
  currency : Option String
  payment_intent : PIField
  deriving Repr, DecidableEq

/-- extract_payment_intent_id (billing_routes.py lines 252-258). -/
def extract_payment_intent_id : Option StripeInvoiceData → Option String
  | none => none
  | some inv =>
    match inv.payment_intent with
    | PIField.missing => none
    | PIField.asStr s => some s
    | PIField.asObj i => i

/-- Outcome of a provider-side subscription delete: success, an invalid
request with code resource_missing (treated as already canceled), another
invalid request (surfaced as a 400), or any other exception (uncaught). -/
inductive DeleteResult where
  | ok : DeleteResult
  | resourceMissing : DeleteResult
  | invalidRequest : DeleteResult
  | otherFailure : DeleteResult
  deriving Repr, DecidableEq

/-- A transaction detail payload fetched from the paddle API. -/
structure TxDetail where
  invoice_id : Option String
  customer_id : Option String
  bp_start : Option Int
  bp_end : Option Int
  deriving Repr, DecidableEq

/-- One outbound provider call. -/
inductive ProvCall where
  | pmRetrieve : String → ProvCall
  | subRetrieve : String → ProvCall
  | subModifyItems : String → Bool → String → String → String → ProvCall
  | subDelete : String → ProvCall
  | refundCreate : String → Int → String → ProvCall
  | invoiceList : String → Bool → ProvCall
  | txDetailFetch : String → ProvCall
  | pdfUrlFetch : String → ProvCall
  deriving Repr, DecidableEq

/-- Oracles for every external collaborator; now is the current epoch second. -/
structure ProviderEnv where
  now : Int
  pmRetrieveRes : String → Option PMInfo
  subRetrieveRes : String → Option StripeSubObj
  subModifyOk : Bool
  subDeleteRes : String → DeleteResult
  refundCreateRes : String → Int → Option (Option String)
  invoiceListPaidRes : String → Option (List StripeInvoiceData)
  invoiceListAnyRes : String → Option (List StripeInvoiceData)
  txDetailsRes : String → Option TxDetail
  pdfUrlRes : String → Option String
  hmacHex : String → String → String

/-- An HTTPException raised to the caller. -/
structure HErr where
  code : Nat
  detail : String
  deriving Repr, DecidableEq

/-- The stripe event data object, restricted to the keys the webhook reads.
items_data holds the ids of the items list entries. -/
structure StripeData where
  id : Option String := none
  customer : Option String := none
  payment_method : Option String := none
  subscription : Option String := none
  amount_due : Option Int := none
  amount_paid : Option Int := none
  currency : Option String := none
  invoice_pdf : Option String := none
  hosted_invoice_url : Option String := none
  status : Option String := none
  period_start : Option Int := none
  period_end : Option Int := none
  subtotal : Option Int := none
  tax : Option Int := none
  total : Option Int := none
  tax_percent : Option ℚ := none
  cancel_at_period_end : Option Bool := none
  items_data : List String := []
  deriving Repr, DecidableEq

/-! ## Immediate cancellation (billing_routes.py lines 278-302 and 364-551) -/

/-- The subscription row view loaded by fetch_subscription_for_org, after
the route has checked that the stripe subscription id is present. -/
structure SubView where
  subscription_id : Nat
  stripe_subscription_id : String
  current_period_start : Option Int
  current_period_end : Option Int
  cancel_at_period_end : Bool
  deriving Repr, DecidableEq

/-- The JSON body returned by an immediate cancellation. -/
structure CancelResp where
  mode : String
  canceled : Bool
  refunded : Bool
  refund_amount_cents : Int
  currency : String
  refund_mode : Option String
  stripe_refund_id : Option String
  deriving Repr, DecidableEq

/-- Keep a listed invoice only when its status is paid
(get_latest_paid_invoice, lines 296-302). -/
def keep_if_paid (invoices : List StripeInvoiceData) : Option StripeInvoiceData :=
  match invoices.head? with
  | none => none
  | some inv => if inv.status = some "paid" then some inv else none

/-- get_latest_paid_invoice (source lines 278-302): list the most recent
paid invoice, falling back to an unfiltered list if the filtered call
raises, and honoring the result only if its status is paid. -/
def get_latest_paid_invoice (env : ProviderEnv) (ssid : String) :
    Option StripeInvoiceData × List ProvCall :=
  match env.invoiceListPaidRes ssid with
  | some invoices => (keep_if_paid invoices, [ProvCall.invoiceList ssid true])
  | none =>
    match env.invoiceListAnyRes ssid with
    | some invoices =>
      (keep_if_paid invoices, [ProvCall.invoiceList ssid true, ProvCall.invoiceList ssid false])
    | none => (none, [ProvCall.invoiceList ssid true, ProvCall.invoiceList ssid false])

/-- The local writes of an immediate cancellation, performed only after the
provider cancel (and refund, if any) succeeded (source lines 468-540):
mark the subscription canceled with the period end pulled to now, insert
the cancellation_requests row, and audit the cancellation and any refund. -/
def cancel_finalize (env : ProviderEnv) (s : Store) (sub : SubView) (actor_id : Nat)
    (normalized_mode : String) (refund_amount : Int) (currency : String)
    (refund_id : Option String) (invoice_id payment_intent_id : Option String)
    (client_ip user_agent : Option String) : Store × CancelResp :=
  let cancelled_at := env.now
  let subs :=
    updateWhere s.subscriptions (fun r => r.id = sub.subscription_id)
      (fun r => { r with
        status := "canceled"
        cancel_at_period_end := false
        current_period_end := some cancelled_at })
  let cr : CRRow :=
    { subscription_id := sub.subscription_id
      stripe_subscription_id := sub.stripe_subscription_id
      mode := "immediate"
      refund_mode := some normalized_mode
      refund_amount_cents := some refund_amount
      refund_currency := some currency
      stripe_refund_id := refund_id
      stripe_invoice_id := invoice_id
      payment_intent_id := payment_intent_id }
  let s1 := { s with subscriptions := subs,
                     cancellation_requests := s.cancellation_requests ++ [cr] }
  let s2 := addAudit s1
    { actor_id := some actor_id, action := "cancel_immediately",
      session_id := some sub.stripe_subscription_id,
      ip_address := client_ip, user_agent := user_agent }
  let s3 :=
    match refund_id with
    | some rid =>
      addAudit s2
        { actor_id := some actor_id, action := "refund_created",
          session_id := some rid, ip_address := client_ip, user_agent := user_agent }
    | none => s2
  (s3,
    { mode := "immediate", canceled := true, refunded := refund_amount > 0,
      refund_amount_cents := refund_amount, currency := currency,
      refund_mode := some normalized_mode, stripe_refund_id := refund_id })

/-- cancel_subscription_immediately (source lines 364-551).  An existing
immediate cancellation_requests row short-circuits with the stored result;
otherwise the latest paid invoice drives the refund computation, the
provider-side cancel and refund run first, and local writes happen last. -/
def cancel_subscription_immediately (env : ProviderEnv) (s : Store) (sub : SubView)
    (actor_id : Nat) (refund_mode : Option String) (client_ip user_agent : Option String) :
    Store × List ProvCall × Except HErr CancelResp :=
  let ssid := sub.stripe_subscription_id
  match s.cancellation_requests.find?
      (fun r => r.subscription_id = sub.subscription_id ∧ r.mode = "immediate") with
  | some existing_row =>
    (s, [],
      Except.ok
        { mode := "immediate", canceled := true,
          refunded := (existing_row.refund_amount_cents.getD 0) > 0,
          refund_amount_cents := existing_row.refund_amount_cents.getD 0,
          currency := (pyOrS existing_row.refund_currency (some "usd")).getD "usd",
          refund_mode := existing_row.refund_mode,
          stripe_refund_id := existing_row.stripe_refund_id })
  | none =>
    let res := get_latest_paid_invoice env ssid
    let invoice_data := res.1
    let calls0 := res.2
    let amount_paid := match invoice_data with | some d => d.amount_paid.getD 0 | none => 0
    let currency := match invoice_data with | some d => d.currency.getD "usd" | none => "usd"
    let invoice_id := invoice_data.bind (fun d => d.id)
    let payment_intent_id :=
      match invoice_data with
      | some _ => extract_payment_intent_id invoice_data
      | none => none
    let mr := compute_refund_amount refund_mode amount_paid
      sub.current_period_start sub.current_period_end env.now
    let normalized_mode := mr.1
    let refund_amount := mr.2
    let calls1 := calls0 ++ [ProvCall.subDelete ssid]
    match env.subDeleteRes ssid with
    | DeleteResult.invalidRequest =>
      (s, calls1,
        Except.error ⟨400, "Unable to cancel subscription immediately. Please try again later."⟩)
    | DeleteResult.otherFailure =>
      (s, calls1, Except.error ⟨500, "Internal Server Error"⟩)
    | _ =>
      match payment_intent_id, decide (refund_amount > 0) with
      | some pid, true =>
        let idem := "cancel-" ++ toString sub.subscription_id ++ "-"
          ++ invoice_id.getD "none" ++ "-" ++ toString refund_amount
        let calls2 := calls1 ++ [ProvCall.refundCreate pid refund_amount idem]
        (match env.refundCreateRes pid refund_amount with
        | none =>
          (s, calls2,
            Except.error ⟨400, "Refund failed while canceling subscription. Please try again."⟩)
        | some rid =>
          let out := cancel_finalize env s sub actor_id normalized_mode refund_amount
            currency rid invoice_id payment_intent_id client_ip user_agent
          (out.1, calls2, Except.ok out.2))
      | none, true =>
        let out := cancel_finalize env s sub actor_id normalized_mode 0
          currency none invoice_id none client_ip user_agent
        (out.1, calls1, Except.ok out.2)
      | _, false =>
        let out := cancel_finalize env s sub actor_id normalized_mode refund_amount
          currency none invoice_id payment_intent_id client_ip user_agent
        (out.1, calls1, Except.ok out.2)

/-! ## Scheduled downgrade (billing_routes.py lines 128-218,
stripe_client.py lines 179-242) -/

/-- apply_scheduled_downgrade (billing_routes.py lines 128-218): when a
renewal event arrives for a subscription with a pending scheduled
downgrade, and the event is not pending cancellation and carries an items
payload, swap the line item to the target price with no proration, delete
the schedule row and audit; otherwise leave everything in place. -/
def apply_scheduled_downgrade (env : ProviderEnv) (s : Store)
    (stripe_subscription_id : String) (subscription_db_id : Option Nat)
    (actor_id : Option Nat) (subscription_payload : StripeData)
    (client_ip user_agent : Option String) : Store × List ProvCall :=
  if ¬ truthyN subscription_db_id then (s, [])
  else
    let sid := subscription_db_id.getD 0
    match latestBy (s.scheduled_downgrades.filter (fun r => r.subscription_id = sid))
        (fun r => r.created_at) with
    | none => (s, [])
    | some pending =>
      if truthyB subscription_payload.cancel_at_period_end then (s, [])
      else
        match subscription_payload.items_data with
        | [] => (s, [])
        | subscription_item_id :: _ =>
          let target_price := pending.target_price_id
          let call := ProvCall.subModifyItems stripe_subscription_id false "none"
            subscription_item_id target_price
          if ¬ env.subModifyOk then (s, [call])
          else
            let s1 := { s with scheduled_downgrades :=
              s.scheduled_downgrades.filter (fun r => r.id ≠ pending.id) }
            let s2 := addAudit s1
              { actor_id := actor_id, action := "scheduled_downgrade_applied",
                session_id := some stripe_subscription_id,
                ip_address := client_ip, user_agent := user_agent }
            (s2, [call])

/-- downgrade_subscription_logic (stripe_client.py lines 179-242): upsert
the single scheduled_downgrades row for the subscription without calling
the provider; inner HTTP errors are wrapped by the catch-all into a 500. -/
def downgrade_subscription_logic (s : Store) (current_sub_id : String)
    (new_price_id : String) (now : Int) : Store × List ProvCall × Except HErr String :=
  match s.subscriptions.find? (fun r => r.stripe_subscription_id = some current_sub_id) with
  | none => (s, [], Except.error ⟨500, "Downgrade scheduling failed"⟩)
  | some rec =>
    let sub_db_id := rec.id
    let user_id := rec.billing_contact_user_id
    let org_opt := user_id.bind fun uid =>
      (s.users.find? (fun u => u.id = uid)).bind (fun u => u.organization_id)
    if ¬ truthyN org_opt then (s, [], Except.error ⟨500, "Downgrade scheduling failed"⟩)
    else
      let org_id := org_opt.getD 0
      let updated :=
        updateWhere s.scheduled_downgrades (fun r => r.subscription_id = sub_db_id)
          (fun r => { r with target_price_id := new_price_id, created_at := now })
      let s1 :=
        if s.scheduled_downgrades.any (fun r => r.subscription_id = sub_db_id) then
          { s with scheduled_downgrades := updated }
        else
          { s with
            scheduled_downgrades := s.scheduled_downgrades ++
              [{ id := s.next_sd_id, subscription_id := sub_db_id,
                 organization_id := org_id, target_price_id := new_price_id,
                 created_at := now }]
            next_sd_id := s.next_sd_id + 1 }
      (s1, [], Except.ok "Downgrade scheduled for next billing cycle")

/-! ## Usage counter reset on plan change (billing_routes.py lines 1326-1373) -/

/-- Reset condition for one usage key: the old limit is unknown or the new
limit is strictly greater. -/
def shouldReset (old_limit : Option Int) (new_limit : Int) : Bool :=
  match old_limit with
  | none => true
  | some o => new_limit > o

/-- Zero a usage counter and roll its window to the current day
(the UPDATE statements at source lines 1349-1372). -/
def resetCounter (st : Store) (oid : Nat) (key : String) (now : Int) : Store :=
  let counters :=
    updateWhere st.usage_counters
      (fun u => u.organization_id = oid ∧ u.usage_key = key)
      (fun u => { u with
        used := 0
        period_start := some (dayTrunc now)
        period_end := some (dayTrunc now + 86400) })
  { st with usage_counters := counters }

/-- The usage-reset block of the stripe webhook (source lines 1326-1373):
on a plan change, reset the sbom_upload and project_scan counters exactly
for the keys whose limit increased or whose old plan is unknown.  A missing
new-plan row raises inside the swallowed try block, so nothing is reset. -/
def reset_usage_on_upgrade (s : Store) (org_id : Option Nat)
    (old_plan_id : Option Nat) (plan_id : Option Nat) (now : Int) : Store :=
  if ¬ (truthyN org_id ∧ truthyN plan_id ∧ (old_plan_id = none ∨ old_plan_id ≠ plan_id)) then s
  else
    let oid := org_id.getD 0
    let pid := plan_id.getD 0
    let old_row := old_plan_id.bind fun op => s.subscription_plans.find? (fun p => p.id = op)
    let old_sbom : Option Int := old_row.map (fun p => p.sbom_limit)
    let old_scan : Option Int := old_row.map (fun p => p.project_scan_limit)
    match s.subscription_plans.find? (fun p => p.id = pid) with
    | none => s
    | some new_row =>
      let s1 := if shouldReset old_sbom new_row.sbom_limit then resetCounter s oid "sbom_upload" now else s
      let s2 := if shouldReset old_scan new_row.project_scan_limit then resetCounter s1 oid "project_scan" now else s1
      s2

/-! ## Paddle webhook handler (paddle_webhook_routes.py lines 464-698)

The JSON payload is embedded post-parse: PaddleData holds exactly the keys
the handler reads (with datetime fields after parse_dt and money fields
after to_cents), and CtxData is the result of
extract_context_from_custom_data.  Keys read through alternative spellings
in nested objects (current_billing_period versus current_billing_cycle,
details.totals versus totals) are collapsed into one field each. -/

/-- The data object of a paddle webhook payload. -/
structure PaddleData where
  id : Option String := none
  transaction_id : Option String := none
  subscription_id : Option String := none
  subscription : Option String := none
  status : Option String := none
  cbp_starts_at : Option Int := none
  cbp_ends_at : Option Int := none
  invoice_id : Option String := none
  customer_id : Option String := none
  currency_code : Option String := none
  currency : Option String := none
  totals_currency_code : Option String := none
  totals_total : Int := 0
  totals_subtotal : Int := 0
  totals_tax : Int := 0
  deriving Repr, DecidableEq

/-- The result of extract_context_from_custom_data (source lines 150-166). -/
structure CtxData where
  actor_id : Option Nat := none
  org_id : Option Nat := none
  plan_id : Option Nat := none
  interval : String := "monthly"
  subtotal_cents : Int := 0
  tax_cents : Int := 0
  total_cents : Int := 0
  tax_rate_percent : Option ℚ := none
  billing_address_id : Option Nat := none
  deriving Repr, DecidableEq

/-- A parsed paddle webhook event (parse_event, source lines 101-105). -/
structure PaddleEvent where
  event_id : String := ""
  event_type : String := ""
  data : PaddleData := {}
  ctx : CtxData := {}
  deriving Repr, DecidableEq

/-- resolve_org_id (billing_routes.py lines 50-58): the organization of a
user, raising 404 when the user or the organization link is missing. -/
def resolve_org_id (s : Store) (user_id : Nat) : Except HErr Nat :=
  match (s.users.find? (fun u => u.id = user_id)).bind (fun u => u.organization_id) with
  | none => Except.error ⟨404, "User organization not found"⟩
  | some oid =>
    if oid = 0 then Except.error ⟨404, "User organization not found"⟩
    else Except.ok oid

/-- lookup_org_id_by_subscription_db_id (paddle_webhook_routes.py lines 191-198). -/
def lookup_org_id_by_subscription_db_id (s : Store) (subscription_db_id : Nat) : Option Nat :=
  (s.organizations.find? (fun o => o.subscription_id = some subscription_db_id)).map
    (fun o => o.id)

/-- The status string of a paddle event: the data status, else the last
event type segment, else empty; lowercased (source lines 543 and 588). -/
def paddle_event_status (e : PaddleEvent) : String :=
  strLower ((pyOrS (pyOrS e.data.status (some (lastSegment e.event_type))) (some "")).getD "")

/-- The subscription.* branch of the paddle webhook (source lines 532-576). -/
def paddle_sub_branch (e : PaddleEvent) (actor_id0 org_id0 plan_id0 : Option Nat)
    (interval0 : String) (s : Store) : Store × List ProvCall × Except HErr String :=
  let psid := (pyOrS (pyOrS e.data.id e.data.subscription_id) e.data.subscription).getD ""
  if psid = "" then (s, [], Except.ok "ok")
  else
    let status := paddle_event_status e
    let cps := e.data.cbp_starts_at
    let cpe := e.data.cbp_ends_at
    let existing := s.subscriptions.find? (fun r => r.paddle_subscription_id = some psid)
    let actor_id := match existing with
      | some ex => pyOrN actor_id0 ex.created_by
      | none => actor_id0
    let plan_id := match existing with
      | some ex => pyOrN plan_id0 ex.plan_id
      | none => plan_id0
    let interval : Option String := match existing with
      | some ex => pyOrS (some interval0) ex.interval
      | none => some interval0
    let up := upsert_subscription_strong s actor_id plan_id status interval psid cps cpe
    let s1 := up.1
    let sub_db_id := up.2
    if truthyN sub_db_id then
      let sid := sub_db_id.getD 0
      let org_id :=
        if ¬ truthyN org_id0 then lookup_org_id_by_subscription_db_id s1 sid else org_id0
      let s2 := if truthyN org_id then link_org_subscription s1 (org_id.getD 0) sid else s1
      (s2, [], Except.ok "ok")
    else (s1, [], Except.ok "ok")

/-- The transaction.* branch of the paddle webhook (source lines 581-695). -/
def paddle_tx_branch (env : ProviderEnv) (e : PaddleEvent)
    (actor_id org_id plan_id : Option Nat) (interval0 : String) (s : Store) :
    Store × List ProvCall × Except HErr String :=
  let txid := (pyOrS e.data.id e.data.transaction_id).getD ""
  if txid = "" then (s, [], Except.ok "ok")
  else
    let psid := pyOrS e.data.subscription_id e.data.subscription
    let status := paddle_event_status e
    let currency := ((pyOrS (pyOrS (pyOrS e.data.currency_code e.data.currency)
      e.data.totals_currency_code) (some "usd")).getD "usd")
    let subtotal_cents := pyOrInt e.ctx.subtotal_cents e.data.totals_subtotal
    let tax_cents := pyOrInt e.ctx.tax_cents e.data.totals_tax
    let total_cents := pyOrInt e.ctx.total_cents e.data.totals_total
    let ens :=
      if truthyS psid then
        let ps := psid.getD ""
        match s.subscriptions.find? (fun r => r.paddle_subscription_id = some ps) with
        | some ex => (s, some ex.id)
        | none =>
          let r := ensure_subscription_exists_only s actor_id plan_id (some interval0) ps
          let s1 := r.1
          let sub_db_id := r.2
          if truthyN sub_db_id ∧ truthyN org_id then
            (link_org_subscription s1 (org_id.getD 0) (sub_db_id.getD 0), sub_db_id)
          else (s1, sub_db_id)
      else (s, none)
    let s1 := ens.1
    let sub_db_id := ens.2
    if status = "paid" ∨ status = "completed" then
      let paddle_invoice_id := e.data.invoice_id
      let paddle_customer_id := e.data.customer_id
      let s2 :=
        if truthyN sub_db_id ∧ truthyS paddle_customer_id then
          update_subscription_paddle_customer_id s1 (sub_db_id.getD 0)
            (paddle_customer_id.getD "")
        else s1
      let need_tx_detail := ¬ truthyS paddle_invoice_id ∨ ¬ truthyS paddle_customer_id
      let tx_detail := if need_tx_detail then env.txDetailsRes txid else none
      let calls0 := if need_tx_detail then [ProvCall.txDetailFetch txid] else []
      let paddle_invoice_id2 := match tx_detail with
        | some td => pyOrS paddle_invoice_id td.invoice_id
        | none => paddle_invoice_id
      let period_start := tx_detail.bind (fun td => td.bp_start)
      let period_end := tx_detail.bind (fun td => td.bp_end)
      let s3 := upsert_invoice_terminal s2 actor_id sub_db_id txid paddle_invoice_id2
        status currency subtotal_cents tax_cents total_cents e.ctx.tax_rate_percent
        period_start period_end
      let pdf_url := env.pdfUrlRes txid
      let s4 := update_invoice_urls s3 txid pdf_url
      (s4, calls0 ++ [ProvCall.pdfUrlFetch txid], Except.ok "ok")
    else (s1, [], Except.ok "ok")

/-- The paddle webhook body after signature verification and JSON parsing
(source lines 492-698): validate ids, record the event exactly once,
audit, resolve the organization, and dispatch on the event type. -/
def paddle_webhook_core (env : ProviderEnv) (e : PaddleEvent)
    (client_ip user_agent : Option String) (s : Store) :
    Store × List ProvCall × Except HErr String :=
  if e.event_id = "" then (s, [], Except.error ⟨400, "Missing event_id"⟩)
  else if e.event_type = "" then (s, [], Except.error ⟨400, "Missing event_type"⟩)
  else if s.billing_events.contains e.event_id then (s, [], Except.ok "already_processed")
  else
    let s1 := recordEvent e.event_id s
    let s2 := addAudit s1
      { actor_id := none, action := "paddle_webhook_received",
        session_id := some e.event_id, ip_address := client_ip, user_agent := user_agent }
    let actor_id := e.ctx.actor_id
    let org_id0 := e.ctx.org_id
    let plan_id := e.ctx.plan_id
    let interval := e.ctx.interval
    let orgRes : Except HErr (Option Nat) :=
      if ¬ truthyN org_id0 ∧ truthyN actor_id then
        (resolve_org_id s2 (actor_id.getD 0)).map some
      else Except.ok org_id0
    match orgRes with
    | Except.error err => (s2, [], Except.error err)
    | Except.ok org_id =>
      if strStartsWith e.event_type "subscription." then
        paddle_sub_branch e actor_id org_id plan_id interval s2
      else if strStartsWith e.event_type "transaction." then
        paddle_tx_branch env e actor_id org_id plan_id interval s2
      else (s2, [], Except.ok "ok")

/-- The paddle webhook route (source lines 464-496): require and verify
the signature header, parse the JSON body, then run the core handler.
parseJson is the JSON parser oracle, returning none on a decode error. -/
def paddle_webhook (env : ProviderEnv) (raw : String) (sig_header : Option String)
    (webhook_secret : String) (parseJson : String → Option PaddleEvent)
    (client_ip user_agent : Option String) (s : Store) :
    Store × List ProvCall × Except HErr String :=
  if ¬ truthyS sig_header then
    (s, [], Except.error ⟨400, "Missing Paddle-Signature header"⟩)
  else
    let sig := sig_header.getD ""
    if webhook_secret = "" then
      (s, [], Except.error ⟨500, "Paddle webhook secret not configured"⟩)
    else if ¬ verify_paddle_signature env.hmacHex env.now raw sig webhook_secret 300 then
      (s, [], Except.error ⟨400, "Invalid Paddle signature"⟩)
    else
      match parseJson raw with
      | none => (s, [], Except.error ⟨400, "Invalid JSON payload"⟩)
      | some payload => paddle_webhook_core env payload client_ip user_agent s

/-! ## Stripe webhook handler (billing_routes.py lines 809-1378) -/

/-- The most recent checkout record whose stored raw session references the
given provider customer id (the ORDER BY created_at DESC LIMIT 1 lookups at
source lines 86-99 and 1026-1034). -/
def latestCheckoutFor (s : Store) (cust : String) : Option CheckoutRow :=
  latestBy (s.checkout_records.filter (fun r => r.raw_session_customer = some cust))
    (fun r => r.created_at)

/-- The skeleton subscription row inserted by the stripe webhook paths:
status active, stripe provider, database defaults elsewhere. -/
def insert_stripe_skeleton (nid : Nat) (actor_id : Option Nat)
    (cust : Option String) (ssid : String) : SubRow :=
  { id := nid
    created_by := actor_id
    last_updated_by := none
    billing_contact_user_id := actor_id
    plan_id := none
    stripe_customer_id := cust
    stripe_subscription_id := some ssid
    paddle_customer_id := none
    paddle_subscription_id := none
    provider := "stripe"
    status := "active"
    current_period_start := none
    current_period_end := none
    cancel_at_period_end := false
    trial_end := none
    interval := some "monthly" }

/-- Find a subscription row by stripe subscription id. -/
def lookup_sub_by_stripe_id (s : Store) (ssid : String) : Option SubRow :=
  s.subscriptions.find? (fun r => r.stripe_subscription_id = some ssid)

/-- Insert the skeleton subscription if no row with this stripe id exists
(INSERT ... ON CONFLICT (stripe_subscription_id) DO NOTHING). -/
def ensure_stripe_sub_exists (s : Store) (actor_id : Option Nat)
    (cust : Option String) (ssid : String) : Store :=
  if s.subscriptions.any (fun r => r.stripe_subscription_id = some ssid) then s
  else
    { s with
      subscriptions := s.subscriptions ++ [insert_stripe_skeleton s.next_sub_id actor_id cust ssid]
      next_sub_id := s.next_sub_id + 1 }

/-- ensure_subscription_record (billing_routes.py lines 61-125): map a
stripe subscription id to a local row, recovering the actor from the
latest matching checkout record and lazily creating a skeleton row when
needed; returns actor id, local subscription id and plan id. -/
def ensure_subscription_record (s : Store)
    (stripe_subscription_id stripe_customer_id : Option String) :
    Store × (Option Nat × Option Nat × Option Nat) :=
  if ¬ truthyS stripe_subscription_id then (s, (none, none, none))
  else
    let ssid := stripe_subscription_id.getD ""
    match lookup_sub_by_stripe_id s ssid with
    | some rec => (s, (rec.billing_contact_user_id, some rec.id, rec.plan_id))
    | none =>
      if ¬ truthyS stripe_customer_id then (s, (none, none, none))
      else
        let cust := stripe_customer_id.getD ""
        match latestCheckoutFor s cust with
        | none => (s, (none, none, none))
        | some checkout =>
          let actor_id := checkout.actor_id
          let s1 := ensure_stripe_sub_exists s actor_id stripe_customer_id ssid
          match lookup_sub_by_stripe_id s1 ssid with
          | some rec => (s1, (rec.billing_contact_user_id, some rec.id, rec.plan_id))
          | none => (s1, (actor_id, none, none))

/-- What the event-type dispatch of the stripe webhook produces before the
shared audit, notification and subscription-refresh steps: the updated
store, issued provider calls, an early response that skips those shared
steps, and the resolved actor, local subscription, prior plan and stripe
subscription ids. -/
structure DispatchOut where
  store : Store
  calls : List ProvCall
  early : Option String
  actor_id : Option Nat
  sub_db_id : Option Nat
  old_plan_id : Option Nat
  stripe_sub_id : Option String

/-- The charge.succeeded branch (source lines 857-910): persist a new
default payment method, returning early in every case except a fresh
insert. -/
def stripe_charge_branch (env : ProviderEnv) (s : Store) (data : StripeData) : DispatchOut :=
  let cust_id := data.customer
  let pm_id := data.payment_method
  if ¬ (truthyS cust_id ∧ truthyS pm_id) then
    { store := s, calls := [], early := some "ok", actor_id := none,
      sub_db_id := none, old_plan_id := none, stripe_sub_id := none }
  else
    let pm := pm_id.getD ""
    let call := ProvCall.pmRetrieve pm
    match env.pmRetrieveRes pm with
    | none =>
      { store := s, calls := [call], early := some "ok", actor_id := none,
        sub_db_id := none, old_plan_id := none, stripe_sub_id := none }
    | some pmi =>
      if s.payment_methods.any (fun r => r.stripe_payment_method_id = pm) then
        { store := s, calls := [call], early := some "ok", actor_id := none,
          sub_db_id := none, old_plan_id := none, stripe_sub_id := none }
      else
        let row : PMRow :=
          { stripe_customer_id := cust_id, stripe_payment_method_id := pm,
            brand := pmi.brand, last4 := pmi.last4,
            exp_month := pmi.exp_month, exp_year := pmi.exp_year, is_default := true }
        { store := { s with payment_methods := s.payment_methods ++ [row] },
          calls := [call], early := none, actor_id := none,
          sub_db_id := none, old_plan_id := none, stripe_sub_id := none }

/-- The checkout.session.completed branch (source lines 922-966): recover
the actor from the checkout record and make sure a subscription row exists. -/
def stripe_checkout_branch (s : Store) (data : StripeData) : DispatchOut :=
  let cs_id := data.id
  let actor_id : Option Nat :=
    match cs_id with
    | some cid =>
      match s.checkout_records.find? (fun r => r.session_id = cid) with
      | some rec => rec.actor_id
      | none => none
    | none => none
  let stripe_sub_id := data.subscription
  if truthyS stripe_sub_id ∧ truthyN actor_id then
    let ssid := stripe_sub_id.getD ""
    let s1 := ensure_stripe_sub_exists s actor_id data.customer ssid
    let sub_db_id := (lookup_sub_by_stripe_id s1 ssid).map (fun r => r.id)
    { store := s1, calls := [], early := none, actor_id := actor_id,
      sub_db_id := sub_db_id, old_plan_id := none, stripe_sub_id := stripe_sub_id }
  else
    { store := s, calls := [], early := none, actor_id := actor_id,
      sub_db_id := none, old_plan_id := none, stripe_sub_id := stripe_sub_id }

/-- The customer.subscription.* branch (source lines 971-992). -/
def stripe_customer_sub_branch (env : ProviderEnv) (s : Store) (event_type : String)
    (data : StripeData) (client_ip user_agent : Option String) : DispatchOut :=
  let stripe_sub_id := data.id
  let r := ensure_subscription_record s stripe_sub_id data.customer
  let s1 := r.1
  let ensured_actor_id := r.2.1
  let ensured_sub_db_id := r.2.2.1
  let ensured_plan_id := r.2.2.2
  let actor_id := if truthyN ensured_actor_id then ensured_actor_id else none
  let sub_db_id := if truthyN ensured_sub_db_id then ensured_sub_db_id else none
  let old_plan_id := ensured_plan_id
  if event_type = "customer.subscription.updated" ∧ truthyS stripe_sub_id then
    let ap := apply_scheduled_downgrade env s1 (stripe_sub_id.getD "") sub_db_id actor_id
      data client_ip user_agent
    { store := ap.1, calls := ap.2, early := none, actor_id := actor_id,
      sub_db_id := sub_db_id, old_plan_id := old_plan_id, stripe_sub_id := stripe_sub_id }
  else
    { store := s1, calls := [], early := none, actor_id := actor_id,
      sub_db_id := sub_db_id, old_plan_id := old_plan_id, stripe_sub_id := stripe_sub_id }

/-- The invoice.* branch (source lines 1004-1177): resolve the actor and
subscription (creating a skeleton row when the invoice precedes them),
derive the tax breakdown, and upsert the invoice. -/
def stripe_invoice_branch (s : Store) (data : StripeData)
    (tax_default_code tax_default_jurisdiction : Option String) : DispatchOut :=
  let invoice_id := data.id
  let stripe_sub_id := data.subscription
  let customer_id := data.customer
  let ar0 : Option Nat × Option Nat :=
    if truthyS stripe_sub_id then
      match lookup_sub_by_stripe_id s (stripe_sub_id.getD "") with
      | some rec => (rec.billing_contact_user_id, some rec.id)
      | none => (none, none)
    else (none, none)
  let actor0 := ar0.1
  let sub0 := ar0.2
  let actor1 :=
    if ¬ truthyN actor0 ∧ truthyS customer_id then
      match latestCheckoutFor s (customer_id.getD "") with
      | some rec => rec.actor_id
      | none => actor0
    else actor0
  let es : Store × Option Nat :=
    if truthyS stripe_sub_id ∧ truthyN actor1 ∧ ¬ truthyN sub0 then
      let ssid := stripe_sub_id.getD ""
      let s1 := ensure_stripe_sub_exists s actor1 customer_id ssid
      (s1, (lookup_sub_by_stripe_id s1 ssid).map (fun r => r.id))
    else (s, sub0)
  let s1 := es.1
  let sub1 := es.2
  let subtotal0 := data.subtotal
  let tax0 := data.tax
  let total0 := data.total
  let subtotal1 : Option Int :=
    if subtotal0 = none then
      let d := data.amount_due.getD 0
      some (if truthyI tax0 then max (d - tax0.getD 0) 0 else d)
    else subtotal0
  let total1 : Option Int :=
    if total0 = none then some (subtotal1.getD 0 + tax0.getD 0) else total0
  let tax1 : Option Int :=
    if tax0 = none ∧ ¬ (subtotal1 = none ∨ subtotal1 = some 0) then
      some (max (total1.getD 0 - subtotal1.getD 0) 0)
    else tax0
  let tax_rate1 : Option ℚ :=
    if data.tax_percent = none ∧ truthyI subtotal1 then
      if subtotal1.getD 0 > 0 then
        some (((tax1.getD 0 : Int) : ℚ) / ((subtotal1.getD 0 : Int) : ℚ) * 100)
      else none
    else data.tax_percent
  let s2 :=
    if truthyN actor1 ∧ truthyN sub1 then
      let excluded : InvoiceRow :=
        { user_id := actor1
          subscription_id := sub1
          stripe_invoice_id := invoice_id
          paddle_transaction_id := none
          paddle_invoice_id := none
          amount_due_cents := data.amount_due.getD 0
          amount_paid_cents := data.amount_paid.getD 0
          currency := some (data.currency.getD "usd")
          invoice_pdf_url := data.invoice_pdf
          hosted_invoice_url := data.hosted_invoice_url
          status := data.status
          period_start := if truthyI data.period_start then data.period_start else none
          period_end := if truthyI data.period_end then data.period_end else none
          subtotal_cents := subtotal1
          tax_cents := tax1
          total_cents := total1
          tax_rate_percent := tax_rate1
          tax_code := tax_default_code
          tax_jurisdiction := tax_default_jurisdiction }
      stripe_invoice_upsert s1 excluded
    else s1
  { store := s2, calls := [], early := none, actor_id := actor1,
    sub_db_id := sub1, old_plan_id := none, stripe_sub_id := stripe_sub_id }

/-- The shared subscription-refresh tail of the stripe webhook (source
lines 1229-1377): for confirming event types with a local subscription id,
retrieve the provider subscription, update the local row, deactivate other
subscriptions of the same billing contact, repoint the organization, and
reset usage counters on a plan change; any failure inside is swallowed. -/
def stripe_update_block (env : ProviderEnv) (s : Store) (event_type : String)
    (stripe_sub_id : Option String) (sub_db_id : Option Nat)
    (actor_id org_id old_plan_id : Option Nat) : Store × List ProvCall :=
  let relevant :=
    event_type = "checkout.session.completed" ∨ event_type = "invoice.paid" ∨
    event_type = "invoice.finalized" ∨ event_type = "customer.subscription.updated" ∨
    event_type = "customer.subscription.deleted"
  if ¬ (relevant ∧ truthyN sub_db_id) then (s, [])
  else
    match stripe_sub_id with
    | none => (s, [])
    | some ssid =>
      match env.subRetrieveRes ssid with
      | none => (s, [ProvCall.subRetrieve ssid])
      | some sub_obj =>
        let price_id := sub_obj.price_id
        let row := s.subscription_plans.find?
          (fun p => p.stripe_price_id_monthly = price_id ∨ p.stripe_price_id_yearly = price_id)
        let plan_id : Option Nat := row.map (fun p => p.id)
        let interval : Option String := row.map
          (fun p => if price_id = p.stripe_price_id_monthly then "monthly" else "yearly")
        let subs :=
          updateWhere s.subscriptions (fun r => r.stripe_subscription_id = some ssid)
            (fun r => { r with
              plan_id := plan_id
              status := sub_obj.status
              interval := interval
              current_period_start := some sub_obj.current_period_start
              current_period_end := some sub_obj.current_period_end
              cancel_at_period_end := sub_obj.cancel_at_period_end
              trial_end := sub_obj.trial_end })
        let s1 := { s with subscriptions := subs }
        let deactivated :=
          updateWhere s1.subscriptions
            (fun r => r.billing_contact_user_id = actor_id ∧
              r.stripe_subscription_id ≠ none ∧ r.stripe_subscription_id ≠ some ssid)
            (fun r => { r with status := "inactive" })
        let s2 := if truthyN actor_id then { s1 with subscriptions := deactivated } else s1
        let s3 :=
          if truthyN org_id ∧ truthyN sub_db_id then
            link_org_subscription s2 (org_id.getD 0) (sub_db_id.getD 0)
          else s2
        let s4 := reset_usage_on_upgrade s3 org_id old_plan_id plan_id env.now
        (s4, [ProvCall.subRetrieve ssid])

/-- A dispatch output that changes nothing. -/
def passDispatch (s : Store) : DispatchOut :=
  { store := s, calls := [], early := none, actor_id := none,
    sub_db_id := none, old_plan_id := none, stripe_sub_id := none }

/-- The event-type dispatch of the stripe webhook (source lines 854-1177). -/
def stripe_dispatch (env : ProviderEnv) (s : Store) (event_type : String)
    (data : StripeData) (tax_default_code tax_default_jurisdiction : Option String)
    (client_ip user_agent : Option String) : DispatchOut :=
  if event_type = "charge.succeeded" then stripe_charge_branch env s data
  else if event_type = "payment_method.attached" then passDispatch s
  else if event_type = "checkout.session.completed" then stripe_checkout_branch s data
  else if strStartsWith event_type "customer.subscription." then
    stripe_customer_sub_branch env s event_type data client_ip user_agent
  else if strStartsWith event_type "payment_intent.succeeded" then passDispatch s
  else if strStartsWith event_type "invoice." then
    stripe_invoice_branch s data tax_default_code tax_default_jurisdiction
  else passDispatch s

/-- The stripe webhook body after signature verification (source lines
829-1378): the idempotency guard, the event dispatch, the shared webhook
audit, the organization lookup and the subscription-refresh tail.  The
response is the status string of the returned JSON body. -/
def stripe_webhook_core (env : ProviderEnv) (event_id event_type : String)
    (data : StripeData) (tax_default_code tax_default_jurisdiction : Option String)
    (client_ip user_agent : Option String) (s : Store) :
    Store × List ProvCall × String :=
  if s.billing_events.contains event_id then (s, [], "already_processed")
  else
    let s0 := recordEvent event_id s
    let d := stripe_dispatch env s0 event_type data tax_default_code
      tax_default_jurisdiction client_ip user_agent
    match d.early with
    | some resp => (d.store, d.calls, resp)
    | none =>
      let s1 := addAudit d.store
        { actor_id := d.actor_id, action := "WEBHOOK_RECEIVED", session_id := data.id,
          ip_address := client_ip, user_agent := user_agent }
      let org_id : Option Nat :=
        if truthyN d.actor_id then
          (s1.users.find? (fun u => some u.id = d.actor_id)).bind (fun u => u.organization_id)
        else none
      let ub := stripe_update_block env s1 event_type d.stripe_sub_id d.sub_db_id
        d.actor_id org_id d.old_plan_id
      (ub.1, d.calls ++ ub.2, "success")

/-! ## Supporting lemmas -/

/-- Truncated integer division of a nonnegative product agrees with the
rational floor of amount times the remaining-over-total ratio. -/
theorem tdiv_mul_eq_floor_ratio (a r t : ℤ) (ha : 0 ≤ a) (hr : 0 < r) (ht : 0 < t) :
    Int.tdiv (a * r) t = ⌊(a : ℚ) * ((r : ℚ) / (t : ℚ))⌋ := by
  have h1 : (a : ℚ) * ((r : ℚ) / (t : ℚ)) = ((a * r : ℤ) : ℚ) / ((t : ℚ)) := by
    push_cast
    ring
  have h2 : ((t.toNat : ℕ) : ℤ) = t := Int.toNat_of_nonneg ht.le
  have h3 : ⌊((a * r : ℤ) : ℚ) / ((t.toNat : ℕ) : ℚ)⌋ = (a * r) / ((t.toNat : ℕ) : ℤ) :=
    Rat.floor_intCast_div_natCast (a * r) t.toNat
  have h4 : Int.tdiv (a * r) t = (a * r) / t :=
    Int.tdiv_eq_ediv (by positivity) ht.le
  rw [h1, h4, ← h2, ← h3]
  norm_cast

/-! ## C3: refund arithmetic -/

/-- C3: for an immediate cancellation, the refund is the full amount paid
in full mode, zero in none mode, and in prorated mode the floor of
amount_paid times remaining_seconds over total_seconds clamped to the
range from 0 to amount_paid; a nonpositive remaining time, a nonpositive
total period, missing period bounds, or a zero amount paid all yield zero;
10000 cents over a 30-day period refunds 5000 at day 15 and 0 at period
end, while full mode refunds the whole amount at any instant. -/
theorem refund_modes_and_proration (a ps pe now : Int) (ha : 0 ≤ a) :
    (compute_refund_amount (some "full") a (some ps) (some pe) now = ("full", a))
    ∧ (compute_refund_amount (some "none") a (some ps) (some pe) now = ("none", 0))
    ∧ (compute_refund_amount (some "prorated") a (some ps) (some pe) now
        = ("prorated", calculate_prorated_amount a (some ps) (some pe) now))
    ∧ (0 < pe - ps → 0 < pe - now →
        calculate_prorated_amount a (some ps) (some pe) now
          = min (max ⌊(a : ℚ) * (((pe - now : ℤ) : ℚ) / ((pe - ps : ℤ) : ℚ))⌋ 0) a)
    ∧ (0 ≤ calculate_prorated_amount a (some ps) (some pe) now
        ∧ calculate_prorated_amount a (some ps) (some pe) now ≤ max a 0)
    ∧ (pe - now ≤ 0 → calculate_prorated_amount a (some ps) (some pe) now = 0)
    ∧ (pe - ps ≤ 0 → calculate_prorated_amount a (some ps) (some pe) now = 0)
    ∧ (calculate_prorated_amount a none (some pe) now = 0)
    ∧ (calculate_prorated_amount a (some ps) none now = 0)
    ∧ (calculate_prorated_amount 0 (some ps) (some pe) now = 0)
    ∧ (calculate_prorated_amount 10000 (some 0) (some 2592000) 1296000 = 5000)
    ∧ (calculate_prorated_amount 10000 (some 0) (some 2592000) 2592000 = 0) := by
  refine ⟨rfl, rfl, rfl, ?_, ?_, ?_, ?_, rfl, rfl, by simp [calculate_prorated_amount],
    by decide, by decide⟩
  · intro ht hr
    by_cases haz : a = 0
    · subst haz
      simp only [calculate_prorated_amount, if_pos rfl]
      rw [show ((0 : ℤ) : ℚ) = 0 by norm_cast]
      rw [zero_mul]
      simp
    · simp only [calculate_prorated_amount, if_neg haz, if_neg (not_le.mpr ht),
        if_neg (not_le.mpr hr)]
      rw [tdiv_mul_eq_floor_ratio a (pe - now) (pe - ps) ha hr ht]
  · unfold calculate_prorated_amount
    by_cases haz : a = 0
    · simp [haz]
    · simp only [if_neg haz]
      by_cases ht : pe - ps ≤ 0
      · simp [ht]
      · simp only [if_neg ht]
        by_cases hr : pe - now ≤ 0
        · simp [hr]
        · simp only [if_neg hr]
          constructor
          · exact le_min (le_max_right _ 0) ha
          · exact le_trans (min_le_right _ a) (le_max_left a 0)
  · intro hr
    unfold calculate_prorated_amount
    by_cases haz : a = 0
    · simp [haz]
    · by_cases ht : pe - ps ≤ 0
      · simp [haz, ht]
      · simp [haz, ht, hr]
  · intro ht
    unfold calculate_prorated_amount
    by_cases haz : a = 0
    · simp [haz]
    · simp [haz, ht]

/-- C3 witness: the theorem applied at amount 10000 over the 30-day period
with now at day 15. -/
theorem refund_modes_and_proration_witness :
    (0 : Int) ≤ 10000
    ∧ compute_refund_amount (some "full") 10000 (some 0) (some 2592000) 1296000
        = ("full", 10000)
    ∧ calculate_prorated_amount 10000 (some 0) (some 2592000) 1296000 = 5000 :=
  ⟨by decide,
    (refund_modes_and_proration 10000 0 2592000 1296000 (by decide)).1,
    (refund_modes_and_proration 10000 0 2592000 1296000 (by decide)).2.2.2.2.2.2.2.2.2.2.1⟩

/-! ## C10: usage overview arithmetic -/

/-- C10 counterexample: the seats block of the usage overview reports a
negative remaining when more seats are used than the limit allows, and an
absent (not zero) percent when the limit is zero, refuting the claim for
the seats usage key. -/
theorem usage_overview_counterexample :
    (seat_usage 7 (some 5)).remaining = some (-2)
    ∧ (-2 : Int) < 0
    ∧ (seat_usage 3 (some 0)).percent = none := by
  decide

/-- C10 amended: for the usage keys computed by build_usage (sbom_upload,
project_scan, api_requests), remaining is the clamped difference
max(limit - used, 0) and thus never negative, percent never exceeds 100
and is 0 when the limit is 0, and an unknown or negative limit reports
both as absent; the seats block instead reports remaining as the unclamped
difference limit - used (negative when over limit) and an absent percent
when the limit is 0, though its percent also never exceeds 100. -/
theorem usage_overview_amended (entry : Option UsageRow) (l seats_used : Int)
    (hl : 0 ≤ l) :
    ((build_usage entry (some l)).remaining
        = some (max (l - (build_usage entry (some l)).used) 0))
    ∧ (∀ r, (build_usage entry (some l)).remaining = some r → 0 ≤ r)
    ∧ (∀ q, (build_usage entry (some l)).percent = some q → q ≤ 100)
    ∧ (l = 0 → (build_usage entry (some l)).percent = some 0)
    ∧ ((build_usage entry none).remaining = none ∧ (build_usage entry none).percent = none)
    ∧ (∀ l2 : Int, l2 < 0 → (build_usage entry (some l2)).remaining = none
        ∧ (build_usage entry (some l2)).percent = none)
    ∧ ((seat_usage seats_used (some l)).remaining = some (l - seats_used))
    ∧ (l = 0 → (seat_usage seats_used (some l)).percent = none)
    ∧ (∀ q, (seat_usage seats_used (some l)).percent = some q → q ≤ 100)
    ∧ ((seat_usage seats_used none).remaining = none
        ∧ (seat_usage seats_used none).percent = none) := by
  refine ⟨?_, ?_, ?_, ?_, ?_, ?_, ?_, ?_, ?_, ?_⟩
  · simp [build_usage, hl]
  · intro r hr
    simp [build_usage, hl] at hr
    subst hr
    exact le_max_right _ 0
  · intro q hq
    simp [build_usage, hl] at hq
    by_cases hlz : 0 < l
    · rw [if_pos hlz] at hq
      subst hq
      exact min_le_left 100 _
    · rw [if_neg hlz] at hq
      subst hq
      norm_num
  · intro hz
    subst hz
    simp [build_usage]
  · simp [build_usage]
  · intro l2 hl2
    simp [build_usage, not_le.mpr hl2]
  · simp [seat_usage, hl]
  · intro hz
    subst hz
    simp [seat_usage]
  · intro q hq
    simp only [seat_usage] at hq
    by_cases hc : l ≠ 0 ∧ 0 < l
    · rw [if_pos hc] at hq
      simp only [Option.some_inj] at hq
      subst hq
      exact min_le_left 100 _
    · rw [if_neg hc] at hq
      exact absurd hq (by simp)
  · simp [seat_usage]

/-- C10 witness: the amended theorem applied at limit 10, 15 units used
and 4 seats used. -/
theorem usage_overview_amended_witness :
    (0 : Int) ≤ 10
    ∧ (build_usage (some ⟨1, "sbom_upload", 15, none, none⟩) (some 10)).remaining
        = some (max (10 - (build_usage (some ⟨1, "sbom_upload", 15, none, none⟩) (some 10)).used) 0)
    ∧ (seat_usage 4 (some 10)).remaining = some (10 - 4) :=
  ⟨by decide,
    (usage_overview_amended (some ⟨1, "sbom_upload", 15, none, none⟩) 10 4 (by decide)).1,
    (usage_overview_amended (some ⟨1, "sbom_upload", 15, none, none⟩) 10 4
      (by decide)).2.2.2.2.2.2.1⟩

/-! ## C9: webhook signature verification -/

/-- C9 counterexample: a request whose header parses, whose timestamp is
within tolerance, and whose h1 digest equals the HMAC digest of the signed
payload is still rejected when the raw body is empty, so the claimed
if-and-only-if fails without a nonempty-body precondition (the digest
oracle is the external HMAC library; the guard that causes the rejection
never consults it). -/
theorem paddle_signature_claim_counterexample :
    ((parse_paddle_sig "ts=0;h1=aa").1 ≠ ""
      ∧ (parse_paddle_sig "ts=0;h1=aa").2 ≠ []
      ∧ ∃ tsInt : Int, strToInt? (parse_paddle_sig "ts=0;h1=aa").1 = some tsInt
          ∧ |(0 : Int) - tsInt| ≤ 300
          ∧ (fun (_ : String) (_ : String) => "aa") "s"
              ((parse_paddle_sig "ts=0;h1=aa").1 ++ ":" ++ "")
              ∈ (parse_paddle_sig "ts=0;h1=aa").2)
    ∧ verify_paddle_signature (fun _ _ => "aa") 0 "" "ts=0;h1=aa" "s" 300 = false := by
  refine ⟨⟨by decide, by decide, 0, by decide, by decide, by decide⟩, by decide⟩

/-- C9 amended: for a nonempty raw body and configured secret,
verify_paddle_signature accepts exactly when the header parses to a
nonempty integer timestamp and at least one h1 digest, the timestamp is
within the tolerance window of the current time, and some h1 digest
equals the HMAC hex digest of ts, colon, raw body under the secret; the
webhook endpoint rejects a missing header and a failed verification with
HTTP 400 returning the store unchanged and issuing no provider call. -/
theorem paddle_signature_verification (hm : String → String → String)
    (now tol : Int) (raw header secret : String)
    (hraw : raw ≠ "") (hsec : secret ≠ "") :
    (verify_paddle_signature hm now raw header secret tol = true ↔
      ((parse_paddle_sig header).1 ≠ ""
        ∧ (parse_paddle_sig header).2 ≠ []
        ∧ ∃ tsInt : Int, strToInt? (parse_paddle_sig header).1 = some tsInt
            ∧ |now - tsInt| ≤ tol
            ∧ hm secret ((parse_paddle_sig header).1 ++ ":" ++ raw)
                ∈ (parse_paddle_sig header).2))
    ∧ (∀ (env : ProviderEnv) (parse : String → Option PaddleEvent)
        (ip ua : Option String) (s : Store),
        paddle_webhook env raw none secret parse ip ua s
          = (s, [], Except.error ⟨400, "Missing Paddle-Signature header"⟩))
    ∧ (∀ (env : ProviderEnv) (parse : String → Option PaddleEvent)
        (ip ua : Option String) (s : Store),
        env.hmacHex = hm → env.now = now → header ≠ "" →
        verify_paddle_signature hm now raw header secret 300 = false →
        paddle_webhook env raw (some header) secret parse ip ua s
          = (s, [], Except.error ⟨400, "Invalid Paddle signature"⟩)) := by
  refine ⟨?_, ?_, ?_⟩
  · by_cases hh : header = ""
    · subst hh
      constructor
      · intro hv
        simp [verify_paddle_signature] at hv
      · intro hr
        exfalso
        have hps : parse_paddle_sig "" = ("", []) := by decide
        rw [hps] at hr
        exact hr.1 rfl
    · have h01 : ¬ (raw = "" ∨ header = "" ∨ secret = "") := by
        simp [hraw, hh, hsec]
      rcases hP : parse_paddle_sig header with ⟨ts, h1s⟩
      simp only [verify_paddle_signature, hP, if_neg h01]
      by_cases hts : ts = "" ∨ h1s.isEmpty
      · rw [if_pos hts]
        constructor
        · intro hv
          exact absurd hv (by simp)
        · intro hr
          exfalso
          rcases hts with hts | hts
          · exact hr.1 hts
          · exact hr.2.1 (List.isEmpty_iff.mp hts)
      · rw [if_neg hts]
        push_neg at hts
        cases hti : strToInt? ts with
        | none =>
          dsimp only
          constructor
          · intro hv
            exact absurd hv (by simp)
          · rintro ⟨-, -, tsInt, hsome, -, -⟩
            exact absurd hsome (by simp)
        | some n =>
          dsimp only
          by_cases htol : |now - n| > tol
          · rw [if_pos htol]
            constructor
            · intro hv
              exact absurd hv (by simp)
            · rintro ⟨-, -, tsInt, hsome, hin, -⟩
              injection hsome with hEq
              subst hEq
              exact absurd hin (not_le.mpr htol)
          · rw [if_neg htol]
            constructor
            · intro hv
              rcases List.any_eq_true.mp hv with ⟨h1, hmem, heq⟩
              refine ⟨hts.1, fun hnil => by simp [hnil] at hmem, n, rfl,
                not_lt.mp htol, ?_⟩
              rw [of_decide_eq_true heq]
              exact hmem
            · rintro ⟨-, -, tsInt, hsome, -, hmem⟩
              injection hsome with hEq
              subst hEq
              exact List.any_eq_true.mpr ⟨_, hmem, by simp⟩
  · intro env parse ip ua s
    simp [paddle_webhook, truthyS]
  · intro env parse ip ua s hhm hnow hh hv
    have h1 : truthyS (some header) = true := by simp [truthyS, hh]
    simp [paddle_webhook, h1, hsec, hhm, hnow, hv]

/-- C9 witness: the amended theorem applied to a concrete accepted request. -/
theorem paddle_signature_verification_witness :
    verify_paddle_signature (fun _ _ => "aa") 5 "body" "ts=5;h1=aa" "s" 300 = true :=
  (paddle_signature_verification (fun _ _ => "aa") 5 300 "body" "ts=5;h1=aa" "s"
      (by decide) (by decide)).1.mpr
    ⟨by decide, by decide, 5, by decide, by decide, by decide⟩

/-! ## C1: pending never overwrites active -/

/-- The strong merge never changes the paddle subscription key. -/
theorem merge_strong_preserves_key (old : SubRow) (a : Option Nat) (p : Option Nat)
    (st iv : String) (cps cpe : Option Int) :
    (merge_subscription_strong old a p st iv cps cpe).paddle_subscription_id
      = old.paddle_subscription_id := rfl

/-- After the strong upsert with a pending-status event, every row keyed by
the event's paddle subscription id that was active stays active. -/
theorem upsert_strong_pending_keeps_active (s : Store) (actor_id plan_id : Option Nat)
    (interval0 : Option String) (psid : String) (cps cpe : Option Int)
    (hex : s.subscriptions.any (fun r => r.paddle_subscription_id = some psid) = true)
    (hall : ∀ r ∈ s.subscriptions, r.paddle_subscription_id = some psid →
      r.status = "active") :
    ∀ r ∈ (upsert_subscription_strong s actor_id plan_id "pending" interval0 psid
        cps cpe).1.subscriptions,
      r.paddle_subscription_id = some psid → r.status = "active" := by
  have hsl : strLower "pending" = "pending" := by decide
  intro r hr hps
  simp only [upsert_subscription_strong, hsl, hex, if_true, updateWhere] at hr
  rcases List.mem_map.mp hr with ⟨x, hx, hfx⟩
  by_cases hpx : x.paddle_subscription_id = some psid
  · rw [if_pos (by simp [hpx])] at hfx
    have hact := hall x hx hpx
    rw [← hfx]
    simp [merge_subscription_strong, hact]
  · rw [if_neg (by simp [hpx])] at hfx
    subst hfx
    exact hall x hx hps

/-- C1: a webhook event carrying status pending never overwrites an active
subscription status: the strong upsert keeps the stored status active and
updates every other column with new-value-if-present-else-keep-old
coalesce semantics (interval is always supplied after defaulting, and
columns outside the update list are untouched); at the webhook level,
delivering a subscription event with status pending for an external id
whose local row is active leaves that row active. -/
theorem pending_event_preserves_active :
    (∀ (old : SubRow) (actor_id : Option Nat) (plan_id : Option Nat)
        (interval : String) (cps cpe : Option Int),
      old.status = "active" →
        ((merge_subscription_strong old actor_id plan_id "pending" interval cps cpe).status
            = "active")
        ∧ (∀ p, plan_id = some p →
            (merge_subscription_strong old actor_id plan_id "pending" interval cps cpe).plan_id
              = some p)
        ∧ (plan_id = none →
            (merge_subscription_strong old actor_id plan_id "pending" interval cps cpe).plan_id
              = old.plan_id)
        ∧ (∀ v, cps = some v →
            (merge_subscription_strong old actor_id plan_id "pending" interval cps
              cpe).current_period_start = some v)
        ∧ (cps = none →
            (merge_subscription_strong old actor_id plan_id "pending" interval cps
              cpe).current_period_start = old.current_period_start)
        ∧ (∀ v, cpe = some v →
            (merge_subscription_strong old actor_id plan_id "pending" interval cps
              cpe).current_period_end = some v)
        ∧ (cpe = none →
            (merge_subscription_strong old actor_id plan_id "pending" interval cps
              cpe).current_period_end = old.current_period_end)
        ∧ (∀ u, actor_id = some u →
            (merge_subscription_strong old actor_id plan_id "pending" interval cps
              cpe).last_updated_by = some u
            ∧ (merge_subscription_strong old actor_id plan_id "pending" interval cps
              cpe).billing_contact_user_id = some u)
        ∧ (actor_id = none →
            (merge_subscription_strong old actor_id plan_id "pending" interval cps
              cpe).last_updated_by = old.last_updated_by
            ∧ (merge_subscription_strong old actor_id plan_id "pending" interval cps
              cpe).billing_contact_user_id = old.billing_contact_user_id)
        ∧ ((merge_subscription_strong old actor_id plan_id "pending" interval cps
              cpe).interval = some interval)
        ∧ ((merge_subscription_strong old actor_id plan_id "pending" interval cps
              cpe).paddle_subscription_id = old.paddle_subscription_id)
        ∧ ((merge_subscription_strong old actor_id plan_id "pending" interval cps
              cpe).stripe_subscription_id = old.stripe_subscription_id)
        ∧ ((merge_subscription_strong old actor_id plan_id "pending" interval cps
              cpe).cancel_at_period_end = old.cancel_at_period_end)
        ∧ ((merge_subscription_strong old actor_id plan_id "pending" interval cps
              cpe).created_by = old.created_by))
    ∧ (∀ (env : ProviderEnv) (e : PaddleEvent) (ip ua : Option String) (s : Store)
        (psid : String),
        e.data.id = some psid → psid ≠ "" →
        e.data.status = some "pending" →
        strStartsWith e.event_type "subscription." = true →
        (s.subscriptions.any (fun r => r.paddle_subscription_id = some psid) = true) →
        (∀ r ∈ s.subscriptions, r.paddle_subscription_id = some psid →
          r.status = "active") →
        ∀ r ∈ (paddle_webhook_core env e ip ua s).1.subscriptions,
          r.paddle_subscription_id = some psid → r.status = "active") := by
  constructor
  · intro old actor_id plan_id interval cps cpe hact
    refine ⟨?_, ?_, ?_, ?_, ?_, ?_, ?_, ?_, ?_, rfl, rfl, rfl, rfl, rfl⟩
    · simp [merge_subscription_strong, hact]
    · intro p hp
      simp [merge_subscription_strong, hp, coalesce]
    · intro hp
      simp [merge_subscription_strong, hp, coalesce]
    · intro v hv
      simp [merge_subscription_strong, hv, coalesce]
    · intro hv
      simp [merge_subscription_strong, hv, coalesce]
    · intro v hv
      simp [merge_subscription_strong, hv, coalesce]
    · intro hv
      simp [merge_subscription_strong, hv, coalesce]
    · intro u hu
      simp [merge_subscription_strong, hu, coalesce]
    · intro hu
      simp [merge_subscription_strong, hu, coalesce]
  · intro env e ip ua s psid hid hne hst hty hex hall
    unfold paddle_webhook_core
    by_cases h1 : e.event_id = ""
    · simp only [h1, if_pos rfl]
      exact hall
    · rw [if_neg h1]
      by_cases h2 : e.event_type = ""
      · rw [if_pos h2]
        exact hall
      · rw [if_neg h2]
        by_cases h3 : s.billing_events.contains e.event_id
        · rw [if_pos h3]
          exact hall
        · rw [if_neg h3]
          have hsubs2 : (addAudit (recordEvent e.event_id s)
              { actor_id := none, action := "paddle_webhook_received",
                session_id := some e.event_id, ip_address := ip,
                user_agent := ua }).subscriptions = s.subscriptions := rfl
          set s2 := addAudit (recordEvent e.event_id s)
            { actor_id := none, action := "paddle_webhook_received",
              session_id := some e.event_id, ip_address := ip, user_agent := ua }
            with hs2
          cases horg : (if ¬ truthyN e.ctx.org_id ∧ truthyN e.ctx.actor_id then
              (resolve_org_id s2 (e.ctx.actor_id.getD 0)).map some
            else Except.ok e.ctx.org_id) with
          | error err =>
            simp only [horg]
            rw [hsubs2]
            exact hall
          | ok org_id =>
            simp only [horg, hty, if_true]
            unfold paddle_sub_branch
            have hpsid : (pyOrS (pyOrS e.data.id e.data.subscription_id)
                e.data.subscription).getD "" = psid := by
              simp [pyOrS, hid, truthyS, hne]
            rw [hpsid, if_neg hne]
            have hstatus : paddle_event_status e = "pending" := by
              simp [paddle_event_status, pyOrS, hst, truthyS]
              decide
            rw [hstatus]
            have hup := upsert_strong_pending_keeps_active s2
              (match s2.subscriptions.find?
                  (fun r => r.paddle_subscription_id = some psid) with
                | some ex => pyOrN e.ctx.actor_id ex.created_by
                | none => e.ctx.actor_id)
              (match s2.subscriptions.find?
                  (fun r => r.paddle_subscription_id = some psid) with
                | some ex => pyOrN e.ctx.plan_id ex.plan_id
                | none => e.ctx.plan_id)
              (match s2.subscriptions.find?
                  (fun r => r.paddle_subscription_id = some psid) with
                | some ex => pyOrS (some e.ctx.interval) ex.interval
                | none => some e.ctx.interval)
              psid e.data.cbp_starts_at e.data.cbp_ends_at
              (by rw [hsubs2]; exact hex)
              (by rw [hsubs2]; exact hall)
            set upres := upsert_subscription_strong s2
              (match s2.subscriptions.find?
                  (fun r => r.paddle_subscription_id = some psid) with
                | some ex => pyOrN e.ctx.actor_id ex.created_by
                | none => e.ctx.actor_id)
              (match s2.subscriptions.find?
                  (fun r => r.paddle_subscription_id = some psid) with
                | some ex => pyOrN e.ctx.plan_id ex.plan_id
                | none => e.ctx.plan_id)
              "pending"
              (match s2.subscriptions.find?
                  (fun r => r.paddle_subscription_id = some psid) with
                | some ex => pyOrS (some e.ctx.interval) ex.interval
                | none => some e.ctx.interval)
              psid e.data.cbp_starts_at e.data.cbp_ends_at with hupres
            by_cases htr : truthyN upres.2
            · simp only [htr, if_true]
              by_cases horg2 : truthyN (if ¬ truthyN org_id then
                  lookup_org_id_by_subscription_db_id upres.1 (upres.2.getD 0)
                else org_id)
              · rw [if_pos horg2]
                intro r hr
                exact hup r (by simpa [link_org_subscription] using hr)
              · rw [if_neg horg2]
                exact hup
            · simp only [htr, if_false]
              exact hup

/-- C1 witness: a concrete active paddle subscription row, hit by a
pending-status subscription event, stays active. -/
theorem pending_event_preserves_active_witness :
    (merge_subscription_strong
      { id := 1, created_by := some 7, last_updated_by := some 7,
        billing_contact_user_id := some 7, plan_id := some 2,
        stripe_customer_id := none, stripe_subscription_id := none,
        paddle_customer_id := none, paddle_subscription_id := some "psub_1",
        provider := "paddle", status := "active",
        current_period_start := some 100, current_period_end := some 200,
        cancel_at_period_end := false, trial_end := none,
        interval := some "monthly" }
      (some 9) none "pending" "monthly" none (some 300)).status = "active" :=
  ((pending_event_preserves_active.1
    { id := 1, created_by := some 7, last_updated_by := some 7,
      billing_contact_user_id := some 7, plan_id := some 2,
      stripe_customer_id := none, stripe_subscription_id := none,
      paddle_customer_id := none, paddle_subscription_id := some "psub_1",
      provider := "paddle", status := "active",
      current_period_start := some 100, current_period_end := some 200,
      cancel_at_period_end := false, trial_end := none,
      interval := some "monthly" }
    (some 9) none "monthly" none (some 300) rfl).1)

/-! ## C2: invoice upsert semantics -/

/-- A store with no rows. -/
def storeEmpty : Store :=
  { billing_events := [], payment_audit := [], checkout_records := [],
    payment_methods := [], users := [], organizations := [],
    subscription_plans := [], subscriptions := [], invoices := [],
    usage_counters := [], scheduled_downgrades := [],
    cancellation_requests := [], next_sub_id := 1, next_sd_id := 1 }

/-- A first, fully populated stripe invoice event row. -/
def invoiceEventFirst : InvoiceRow :=
  { user_id := some 7, subscription_id := some 1, stripe_invoice_id := some "in_1",
    paddle_transaction_id := none, paddle_invoice_id := none,
    amount_due_cents := 1000, amount_paid_cents := 1000, currency := some "usd",
    invoice_pdf_url := some "https://pdf.example/inv1.pdf",
    hosted_invoice_url := some "https://pay.example/inv1",
    status := some "paid", period_start := some 100, period_end := some 200,
    subtotal_cents := some 980, tax_cents := some 20, total_cents := some 1000,
    tax_rate_percent := none, tax_code := some "txcd", tax_jurisdiction := some "VN" }

/-- A later, sparser delivery for the same external invoice id: no URLs, no
period, no tax fields, and a non-terminal status. -/
def invoiceEventSecond : InvoiceRow :=
  { user_id := some 7, subscription_id := some 1, stripe_invoice_id := some "in_1",
    paddle_transaction_id := none, paddle_invoice_id := none,
    amount_due_cents := 1000, amount_paid_cents := 0, currency := some "usd",
    invoice_pdf_url := none, hosted_invoice_url := none,
    status := some "open", period_start := none, period_end := none,
    subtotal_cents := none, tax_cents := none, total_cents := none,
    tax_rate_percent := none, tax_code := none, tax_jurisdiction := none }

/-- C2 counterexample: re-applying a stripe invoice event for the same
external id with fewer fields populated nulls out the previously stored
PDF URL and regresses the terminal paid status to open, because the
stripe upsert overwrites every updated column with the incoming value. -/
theorem invoice_upsert_claim_counterexample :
    (stripe_invoice_upsert storeEmpty invoiceEventFirst).invoices = [invoiceEventFirst]
    ∧ invoiceEventFirst.invoice_pdf_url = some "https://pdf.example/inv1.pdf"
    ∧ invoiceEventFirst.status = some "paid"
    ∧ ((stripe_invoice_upsert (stripe_invoice_upsert storeEmpty invoiceEventFirst)
          invoiceEventSecond).invoices
        = [stripe_invoice_merge invoiceEventFirst invoiceEventSecond])
    ∧ (stripe_invoice_merge invoiceEventFirst invoiceEventSecond).invoice_pdf_url = none
    ∧ (stripe_invoice_merge invoiceEventFirst invoiceEventSecond).status = some "open" := by
  refine ⟨by decide, by decide, by decide, by decide, by decide, by decide⟩

/-- Coalesce is non-null whenever its fallback is non-null. -/
theorem coalesce_ne_none_right {α : Type} (a b : Option α) (h : b ≠ none) :
    coalesce a b ≠ none := by
  cases a <;> simp [coalesce, h]

/-- C2 amended: the paddle invoice upsert keyed on the external transaction
id has the claimed semantics: the URL columns are never touched by a
re-delivery, every coalesced column never goes from populated to null,
status and both amount columns always reflect the latest event, and since
the webhook only upserts invoices for terminal (paid or completed) event
states, the stored status stays terminal.  The stripe invoice upsert
instead overwrites all updated columns with the latest event values, nulls
included, as the counterexample shows. -/
theorem invoice_upsert_amended :
    (∀ old excluded : InvoiceRow,
      ((merge_invoice_terminal old excluded).invoice_pdf_url = old.invoice_pdf_url)
      ∧ ((merge_invoice_terminal old excluded).hosted_invoice_url = old.hosted_invoice_url)
      ∧ (old.period_start ≠ none → (merge_invoice_terminal old excluded).period_start ≠ none)
      ∧ (old.period_end ≠ none → (merge_invoice_terminal old excluded).period_end ≠ none)
      ∧ (old.subtotal_cents ≠ none →
          (merge_invoice_terminal old excluded).subtotal_cents ≠ none)
      ∧ (old.tax_cents ≠ none → (merge_invoice_terminal old excluded).tax_cents ≠ none)
      ∧ (old.total_cents ≠ none → (merge_invoice_terminal old excluded).total_cents ≠ none)
      ∧ (old.tax_rate_percent ≠ none →
          (merge_invoice_terminal old excluded).tax_rate_percent ≠ none)
      ∧ (old.paddle_invoice_id ≠ none →
          (merge_invoice_terminal old excluded).paddle_invoice_id ≠ none)
      ∧ (old.subscription_id ≠ none →
          (merge_invoice_terminal old excluded).subscription_id ≠ none)
      ∧ (old.currency ≠ none → (merge_invoice_terminal old excluded).currency ≠ none)
      ∧ ((merge_invoice_terminal old excluded).status = excluded.status)
      ∧ ((merge_invoice_terminal old excluded).amount_due_cents = excluded.amount_due_cents)
      ∧ ((merge_invoice_terminal old excluded).amount_paid_cents
          = excluded.amount_paid_cents))
    ∧ (∀ (s : Store) (actor sub : Option Nat) (txid : String) (pinv : Option String)
        (status0 currency0 : String) (sc tc tot : Int) (tr : Option ℚ)
        (ps pe : Option Int),
        strLower status0 = "paid" ∨ strLower status0 = "completed" →
        ∀ r ∈ (upsert_invoice_terminal s actor sub txid pinv status0 currency0
            sc tc tot tr ps pe).invoices,
          r.paddle_transaction_id = some txid →
          (r.status = some "paid" ∨ r.status = some "completed")) := by
  constructor
  · intro old excluded
    refine ⟨rfl, rfl, ?_, ?_, ?_, ?_, ?_, ?_, ?_, ?_, ?_, rfl, rfl, rfl⟩
    all_goals
      intro h
      exact coalesce_ne_none_right _ _ h
  · intro s actor sub txid pinv status0 currency0 sc tc tot tr ps pe hterm r hr hkey
    unfold upsert_invoice_terminal at hr
    by_cases hany : s.invoices.any (fun q => q.paddle_transaction_id = some txid)
    · rw [if_pos hany] at hr
      simp only [updateWhere] at hr
      rcases List.mem_map.mp hr with ⟨x, _, hfx⟩
      by_cases hpx : x.paddle_transaction_id = some txid
      · rw [if_pos (by simp [hpx])] at hfx
        rw [← hfx]
        simp only [merge_invoice_terminal, invoice_terminal_excluded]
        rcases hterm with h | h <;> rw [h]
        · exact Or.inl rfl
        · exact Or.inr rfl
      · rw [if_neg (by simp [hpx])] at hfx
        rw [← hfx] at hkey
        exact absurd hkey hpx
    · rw [if_neg hany] at hr
      rcases List.mem_append.mp hr with hmem | hmem
      · exfalso
        apply hany
        exact List.any_eq_true.mpr ⟨r, hmem, by simp [hkey]⟩
      · rcases List.mem_singleton.mp hmem with rfl
        simp only [invoice_terminal_excluded]
        rcases hterm with h | h <;> rw [h]
        · exact Or.inl rfl
        · exact Or.inr rfl

/-- C2 witness: the amended theorem applied to the concrete first delivery
merged with a sparser second delivery: URLs and period survive and the
status tracks the newest event. -/
theorem invoice_upsert_amended_witness :
    ((merge_invoice_terminal invoiceEventFirst invoiceEventSecond).invoice_pdf_url
        = invoiceEventFirst.invoice_pdf_url)
    ∧ ((merge_invoice_terminal invoiceEventFirst invoiceEventSecond).period_start ≠ none)
    ∧ ((merge_invoice_terminal invoiceEventFirst invoiceEventSecond).status
        = invoiceEventSecond.status) :=
  ⟨(invoice_upsert_amended.1 invoiceEventFirst invoiceEventSecond).1,
    (invoice_upsert_amended.1 invoiceEventFirst invoiceEventSecond).2.2.1 (by decide),
    (invoice_upsert_amended.1 invoiceEventFirst invoiceEventSecond).2.2.2.2.2.2.2.2.2.2.2.1⟩

/-! ## C5 and C6: immediate cancellation -/

/-- C5: a second immediate-cancellation request for a subscription that
already has an immediate cancellation_requests row returns the previously
computed refund amount, currency, mode and refund id, performs no provider
call, and leaves the store untouched. -/
theorem immediate_cancellation_idempotent (env : ProviderEnv) (s : Store)
    (sub : SubView) (actor_id : Nat) (refund_mode : Option String)
    (ip ua : Option String) (ex : CRRow)
    (hex : s.cancellation_requests.find?
        (fun r => r.subscription_id = sub.subscription_id ∧ r.mode = "immediate")
      = some ex) :
    cancel_subscription_immediately env s sub actor_id refund_mode ip ua
      = (s, [],
          Except.ok
            { mode := "immediate", canceled := true,
              refunded := (ex.refund_amount_cents.getD 0) > 0,
              refund_amount_cents := ex.refund_amount_cents.getD 0,
              currency := (pyOrS ex.refund_currency (some "usd")).getD "usd",
              refund_mode := ex.refund_mode,
              stripe_refund_id := ex.stripe_refund_id }) := by
  unfold cancel_subscription_immediately
  rw [hex]

/-- A provider environment whose every oracle fails or is empty. -/
def envNoop : ProviderEnv :=
  { now := 0, pmRetrieveRes := fun _ => none, subRetrieveRes := fun _ => none,
    subModifyOk := false, subDeleteRes := fun _ => DeleteResult.otherFailure,
    refundCreateRes := fun _ _ => none, invoiceListPaidRes := fun _ => none,
    invoiceListAnyRes := fun _ => none, txDetailsRes := fun _ => none,
    pdfUrlRes := fun _ => none, hmacHex := fun _ _ => "" }

/-- A previously recorded immediate cancellation. -/
def crExisting : CRRow :=
  { subscription_id := 4, stripe_subscription_id := "sub_x", mode := "immediate",
    refund_mode := some "full", refund_amount_cents := some 500,
    refund_currency := some "usd", stripe_refund_id := some "re_1",
    stripe_invoice_id := some "in_9", payment_intent_id := some "pi_9" }

/-- The store already holding the immediate cancellation row. -/
def storeWithCancellation : Store :=
  { storeEmpty with cancellation_requests := [crExisting] }

/-- The subscription view the cancellation route passes along. -/
def subViewX : SubView :=
  { subscription_id := 4, stripe_subscription_id := "sub_x",
    current_period_start := some 0, current_period_end := some 100,
    cancel_at_period_end := false }

/-- C5 witness: the theorem applied to a concrete replayed cancellation. -/
theorem immediate_cancellation_idempotent_witness :
    cancel_subscription_immediately envNoop storeWithCancellation subViewX 7
        (some "full") none none
      = (storeWithCancellation, [],
          Except.ok
            { mode := "immediate", canceled := true, refunded := true,
              refund_amount_cents := 500, currency := "usd",
              refund_mode := some "full", stripe_refund_id := some "re_1" }) := by
  have h := immediate_cancellation_idempotent envNoop storeWithCancellation subViewX 7
    (some "full") none none crExisting (by decide)
  rw [h]
  rfl

/-- C6: when the refund call fails after the provider-side subscription
cancel has succeeded, the immediate cancellation raises a 400 error having
committed no local write: the store, in particular the subscription row,
the cancellation_requests table and the audit log, is exactly as before,
even though the provider cancel call was issued. -/
theorem refund_failure_state_unchanged (env : ProviderEnv) (s : Store)
    (sub : SubView) (actor_id : Nat) (ip ua : Option String)
    (inv : StripeInvoiceData) (pid : String) (A : Int)
    (hnoex : s.cancellation_requests.find?
        (fun r => r.subscription_id = sub.subscription_id ∧ r.mode = "immediate") = none)
    (hlist : env.invoiceListPaidRes sub.stripe_subscription_id = some [inv])
    (hpaid : inv.status = some "paid")
    (hamt : inv.amount_paid = some A) (hA : 0 < A)
    (hpi : inv.payment_intent = PIField.asStr pid)
    (hdel : env.subDeleteRes sub.stripe_subscription_id = DeleteResult.ok)
    (href : env.refundCreateRes pid A = none) :
    (cancel_subscription_immediately env s sub actor_id (some "full") ip ua).1 = s
    ∧ (cancel_subscription_immediately env s sub actor_id (some "full") ip ua).2.2
        = Except.error ⟨400, "Refund failed while canceling subscription. Please try again."⟩
    ∧ ProvCall.subDelete sub.stripe_subscription_id
        ∈ (cancel_subscription_immediately env s sub actor_id (some "full") ip ua).2.1
    ∧ (cancel_subscription_immediately env s sub actor_id (some "full") ip ua).1.subscriptions
        = s.subscriptions
    ∧ (cancel_subscription_immediately env s sub actor_id
        (some "full") ip ua).1.cancellation_requests = s.cancellation_requests
    ∧ (cancel_subscription_immediately env s sub actor_id
        (some "full") ip ua).1.payment_audit = s.payment_audit := by
  have hg : get_latest_paid_invoice env sub.stripe_subscription_id
      = (some inv, [ProvCall.invoiceList sub.stripe_subscription_id true]) := by
    simp [get_latest_paid_invoice, hlist, keep_if_paid, hpaid]
  have hmain : cancel_subscription_immediately env s sub actor_id (some "full") ip ua
      = (s, [ProvCall.invoiceList sub.stripe_subscription_id true,
              ProvCall.subDelete sub.stripe_subscription_id,
              ProvCall.refundCreate pid A
                ("cancel-" ++ toString sub.subscription_id ++ "-"
                  ++ (inv.id.getD "none") ++ "-" ++ toString A)],
          Except.error
            ⟨400, "Refund failed while canceling subscription. Please try again."⟩) := by
    unfold cancel_subscription_immediately
    rw [hnoex]
    dsimp only
    rw [hg]
    dsimp only
    rw [hamt]
    simp only [Option.getD_some]
    have hc : compute_refund_amount (some "full") A sub.current_period_start
        sub.current_period_end env.now = ("full", A) := rfl
    simp only [hc, hdel]
    simp only [extract_payment_intent_id, hpi, decide_eq_true hA]
    simp only [href]
    simp
  rw [hmain]
  simp

/-- A paid provider invoice carrying a payment intent. -/
def invPaid : StripeInvoiceData :=
  { id := some "in_9", status := some "paid", amount_paid := some 800,
    currency := some "usd", payment_intent := PIField.asStr "pi_9" }

/-- An environment where the provider cancel succeeds and the refund raises. -/
def envRefundFails : ProviderEnv :=
  { envNoop with
    invoiceListPaidRes := fun _ => some [invPaid]
    subDeleteRes := fun _ => DeleteResult.ok
    refundCreateRes := fun _ _ => none }

/-- C6 witness: the theorem applied to a concrete failing refund. -/
theorem refund_failure_state_unchanged_witness :
    (cancel_subscription_immediately envRefundFails storeEmpty subViewX 7
        (some "full") none none).1 = storeEmpty
    ∧ (cancel_subscription_immediately envRefundFails storeEmpty subViewX 7
        (some "full") none none).2.2
      = Except.error ⟨400, "Refund failed while canceling subscription. Please try again."⟩ :=
  ⟨(refund_failure_state_unchanged envRefundFails storeEmpty subViewX 7 none none
      invPaid "pi_9" 800 rfl rfl rfl rfl (by decide) rfl rfl rfl).1,
    (refund_failure_state_unchanged envRefundFails storeEmpty subViewX 7 none none
      invPaid "pi_9" 800 rfl rfl rfl rfl (by decide) rfl rfl rfl).2.1⟩

/-! ## C7: scheduled downgrade deferral and application -/

/-- Updating list entries in place with a function that preserves a
predicate leaves the filtered sublist count unchanged. -/
theorem countP_updateWhere {α : Type} (l : List α) (p q : α → Bool) (f : α → α)
    (h : ∀ x, q (f x) = q x) :
    (updateWhere l p f).countP q = l.countP q := by
  unfold updateWhere
  rw [List.countP_map]
  apply List.countP_congr
  intro x _
  simp only [Function.comp]
  by_cases hp : p x = true
  · rw [if_pos hp, h]
  · rw [if_neg hp]

/-- C7: while a renewal event carries cancel_at_period_end, applying a
scheduled downgrade changes nothing and calls no provider; a renewal event
without pending cancellation and with an items payload issues exactly one
provider swap of the first line item to the target price with no
proration, deletes the schedule row and appends one audit entry; and the
downgrade request itself upserts the single scheduled_downgrades row per
subscription and never calls the provider. -/
theorem scheduled_downgrade_lifecycle :
    (∀ (env : ProviderEnv) (s : Store) (ssid : String) (sub_db_id : Option Nat)
        (actor_id : Option Nat) (payload : StripeData) (ip ua : Option String),
      truthyB payload.cancel_at_period_end = true →
      apply_scheduled_downgrade env s ssid sub_db_id actor_id payload ip ua = (s, []))
    ∧ (∀ (env : ProviderEnv) (s : Store) (ssid : String) (sub_db_id : Option Nat)
        (actor_id : Option Nat) (payload : StripeData) (ip ua : Option String)
        (pending : SDRow) (item : String) (rest : List String),
      truthyN sub_db_id = true →
      latestBy (s.scheduled_downgrades.filter
          (fun r => r.subscription_id = sub_db_id.getD 0)) (fun r => r.created_at)
        = some pending →
      truthyB payload.cancel_at_period_end = false →
      payload.items_data = item :: rest →
      env.subModifyOk = true →
      (apply_scheduled_downgrade env s ssid sub_db_id actor_id payload ip ua).2
          = [ProvCall.subModifyItems ssid false "none" item pending.target_price_id]
      ∧ (apply_scheduled_downgrade env s ssid sub_db_id actor_id payload ip ua).1.scheduled_downgrades
          = s.scheduled_downgrades.filter (fun r => r.id ≠ pending.id)
      ∧ (apply_scheduled_downgrade env s ssid sub_db_id actor_id payload ip ua).1.payment_audit
          = s.payment_audit ++
            [{ actor_id := actor_id, action := "scheduled_downgrade_applied",
               session_id := some ssid, ip_address := ip, user_agent := ua }]
      ∧ (apply_scheduled_downgrade env s ssid sub_db_id actor_id payload ip
          ua).1.subscriptions = s.subscriptions)
    ∧ (∀ (s : Store) (cur_sid new_price : String) (now : Int) (rec : SubRow),
      s.subscriptions.find? (fun r => r.stripe_subscription_id = some cur_sid)
        = some rec →
      truthyN (rec.billing_contact_user_id.bind fun uid =>
        (s.users.find? (fun u => u.id = uid)).bind (fun u => u.organization_id)) = true →
      (s.scheduled_downgrades.filter (fun r => r.subscription_id = rec.id)).length ≤ 1 →
      (downgrade_subscription_logic s cur_sid new_price now).2.1 = []
      ∧ ((downgrade_subscription_logic s cur_sid new_price
          now).1.scheduled_downgrades.filter
            (fun r => r.subscription_id = rec.id)).length = 1
      ∧ (∀ r ∈ (downgrade_subscription_logic s cur_sid new_price
            now).1.scheduled_downgrades,
          r.subscription_id = rec.id → r.target_price_id = new_price)
      ∧ (downgrade_subscription_logic s cur_sid new_price now).2.2
          = Except.ok "Downgrade scheduled for next billing cycle") := by
  refine ⟨?_, ?_, ?_⟩
  · intro env s ssid sub_db_id actor_id payload ip ua hcape
    unfold apply_scheduled_downgrade
    by_cases hsub : truthyN sub_db_id = true
    · simp only [hsub]
      cases latestBy (s.scheduled_downgrades.filter
          (fun r => r.subscription_id = sub_db_id.getD 0)) (fun r => r.created_at) with
      | none => simp
      | some pending => simp [hcape]
    · simp [hsub]
  · intro env s ssid sub_db_id actor_id payload ip ua pending item rest
      hsub hpend hcape hitems hmod
    unfold apply_scheduled_downgrade
    simp only [hsub, hpend, hcape, hitems, hmod]
    simp [addAudit]
  · intro s cur_sid new_price now rec hfind horg hlen
    unfold downgrade_subscription_logic
    rw [hfind]
    simp only [horg, not_true, if_false]
    by_cases hany : s.scheduled_downgrades.any (fun r => r.subscription_id = rec.id) = true
    · simp only [hany, if_true]
      refine ⟨trivial, ?_, ?_, trivial⟩
      · rw [← List.countP_eq_length_filter, countP_updateWhere]
        · rw [← List.countP_eq_length_filter] at hlen
          rcases List.any_eq_true.mp hany with ⟨x, hx, hpx⟩
          have hpos : 0 < s.scheduled_downgrades.countP
              (fun r => decide (r.subscription_id = rec.id)) :=
            List.countP_pos_iff.mpr ⟨x, hx, hpx⟩
          omega
        · intro x
          rfl
      · intro r hr hrid
        simp only [updateWhere] at hr
        rcases List.mem_map.mp hr with ⟨x, hx, hfx⟩
        by_cases hpx : x.subscription_id = rec.id
        · rw [if_pos (by simp [hpx])] at hfx
          rw [← hfx]
        · rw [if_neg (by simp [hpx])] at hfx
          subst hfx
          exact absurd hrid hpx
    · have hanyF : (s.scheduled_downgrades.any
          (fun r => r.subscription_id = rec.id)) = false := by
        cases hb : s.scheduled_downgrades.any (fun r => r.subscription_id = rec.id)
        · rfl
        · exact absurd hb hany
      have hnone : ∀ x ∈ s.scheduled_downgrades, ¬ (x.subscription_id = rec.id) := by
        intro x hx hpx
        exact hany (List.any_eq_true.mpr ⟨x, hx, by simp [hpx]⟩)
      simp only [hanyF, Bool.false_eq_true, if_false]
      refine ⟨trivial, ?_, ?_, trivial⟩
      · rw [List.filter_append]
        have h1 : s.scheduled_downgrades.filter
            (fun r => r.subscription_id = rec.id) = [] := by
          rw [List.filter_eq_nil_iff]
          intro x hx
          simp [hnone x hx]
        rw [h1]
        simp
      · intro r hr hrid
        rcases List.mem_append.mp hr with hmem | hmem
        · exact absurd hrid (hnone r hmem)
        · rcases List.mem_singleton.mp hmem with rfl
          rfl

/-- A concrete active stripe subscription row. -/
def subRowX : SubRow :=
  { id := 4, created_by := some 7, last_updated_by := none,
    billing_contact_user_id := some 7, plan_id := some 2,
    stripe_customer_id := some "cus_1", stripe_subscription_id := some "sub_x",
    paddle_customer_id := none, paddle_subscription_id := none,
    provider := "stripe", status := "active", current_period_start := some 0,
    current_period_end := some 100, cancel_at_period_end := false,
    trial_end := none, interval := some "monthly" }

/-- A concrete user in organization 3. -/
def userRow7 : UserRow := { id := 7, organization_id := some 3, is_active := some true }

/-- A concrete pending scheduled downgrade for subscription 4. -/
def sdRowPending : SDRow :=
  { id := 9, subscription_id := 4, organization_id := 3,
    target_price_id := "price_old", created_at := 50 }

/-- A store with a subscription, a user and one pending downgrade. -/
def storeDowngrade : Store :=
  { storeEmpty with
    subscriptions := [subRowX]
    users := [userRow7]
    scheduled_downgrades := [sdRowPending] }

/-- C7 witness: the theorem applied to a concrete renewal with a pending
downgrade: a cancel_at_period_end renewal leaves everything unchanged, and
the downgrade request keeps exactly one schedule row with the new target. -/
theorem scheduled_downgrade_lifecycle_witness :
    (apply_scheduled_downgrade envNoop storeDowngrade "sub_x" (some 4) (some 7)
        { cancel_at_period_end := some true } none none = (storeDowngrade, []))
    ∧ ((downgrade_subscription_logic storeDowngrade "sub_x" "price_new"
          60).1.scheduled_downgrades.filter (fun r => r.subscription_id = 4)).length = 1 :=
  ⟨scheduled_downgrade_lifecycle.1 envNoop storeDowngrade "sub_x" (some 4) (some 7)
      { cancel_at_period_end := some true } none none (by decide),
    (scheduled_downgrade_lifecycle.2.2 storeDowngrade "sub_x" "price_new" 60
      subRowX (by decide) (by decide) (by decide)).2.1⟩

/-! ## C8: usage counter reset on plan change -/

/-- Filtering by a predicate disjoint from the update predicate ignores an
in-place update that preserves the filter predicate. -/
theorem filter_updateWhere_disjoint {α : Type} (l : List α) (p q : α → Bool)
    (f : α → α) (hq : ∀ x, q (f x) = q x) (hdisj : ∀ x, q x = true → p x = false) :
    (updateWhere l p f).filter q = l.filter q := by
  induction l with
  | nil => rfl
  | cons a t ih =>
    simp only [updateWhere, List.map_cons, List.filter_cons] at *
    by_cases hpa : p a = true
    · have hqa : q a = false := by
        cases hb : q a
        · rfl
        · rw [hdisj a hb] at hpa
          exact absurd hpa (by simp)
      rw [if_pos hpa, hq a, hqa]
      simpa using ih
    · rw [if_neg hpa]
      cases hb : q a
      · simpa [hb] using ih
      · simpa [hb] using ih

/-- C8: on a plan change with a known new plan, for each of the
sbom_upload and project_scan usage keys the organization counter is reset
to zero with its window rolled to the current day exactly when the old
plan is unknown or the new limit is strictly greater than the old; when
the old limit is known and the new limit is not strictly greater, the
rows for that key are untouched. -/
theorem usage_reset_on_plan_change (s : Store) (o p : Nat) (old_plan : Option Nat)
    (now : Int) (new_row : PlanRow)
    (ho : o ≠ 0) (hp : p ≠ 0) (hchange : old_plan ≠ some p)
    (hfind : s.subscription_plans.find? (fun q => q.id = p) = some new_row) :
    ((old_plan.bind (fun op => s.subscription_plans.find? (fun q => q.id = op))
          = none
        ∨ (∃ oldp, old_plan.bind (fun op =>
              s.subscription_plans.find? (fun q => q.id = op)) = some oldp
            ∧ oldp.sbom_limit < new_row.sbom_limit)) →
      ∀ u ∈ (reset_usage_on_upgrade s (some o) old_plan (some p) now).usage_counters,
        u.organization_id = o → u.usage_key = "sbom_upload" →
          u.used = 0 ∧ u.period_start = some (dayTrunc now)
            ∧ u.period_end = some (dayTrunc now + 86400))
    ∧ ((∃ oldp, old_plan.bind (fun op =>
            s.subscription_plans.find? (fun q => q.id = op)) = some oldp
          ∧ new_row.sbom_limit ≤ oldp.sbom_limit) →
      (reset_usage_on_upgrade s (some o) old_plan (some p) now).usage_counters.filter
          (fun u => u.organization_id = o ∧ u.usage_key = "sbom_upload")
        = s.usage_counters.filter
          (fun u => u.organization_id = o ∧ u.usage_key = "sbom_upload"))
    ∧ ((old_plan.bind (fun op => s.subscription_plans.find? (fun q => q.id = op))
          = none
        ∨ (∃ oldp, old_plan.bind (fun op =>
              s.subscription_plans.find? (fun q => q.id = op)) = some oldp
            ∧ oldp.project_scan_limit < new_row.project_scan_limit)) →
      ∀ u ∈ (reset_usage_on_upgrade s (some o) old_plan (some p) now).usage_counters,
        u.organization_id = o → u.usage_key = "project_scan" →
          u.used = 0 ∧ u.period_start = some (dayTrunc now)
            ∧ u.period_end = some (dayTrunc now + 86400))
    ∧ ((∃ oldp, old_plan.bind (fun op =>
            s.subscription_plans.find? (fun q => q.id = op)) = some oldp
          ∧ new_row.project_scan_limit ≤ oldp.project_scan_limit) →
      (reset_usage_on_upgrade s (some o) old_plan (some p) now).usage_counters.filter
          (fun u => u.organization_id = o ∧ u.usage_key = "project_scan")
        = s.usage_counters.filter
          (fun u => u.organization_id = o ∧ u.usage_key = "project_scan")) := by
  have hguard : ¬ ¬ (truthyN (some o) = true ∧ truthyN (some p) = true
      ∧ (some p = (none : Option Nat) ∨ old_plan ≠ some p)) := by
    simp [truthyN, ho, hp, hchange]
  have hred : reset_usage_on_upgrade s (some o) old_plan (some p) now
      = (let old_row := old_plan.bind fun op =>
            s.subscription_plans.find? (fun q => q.id = op)
         let s1 := if shouldReset (old_row.map (fun q => q.sbom_limit))
              new_row.sbom_limit then resetCounter s o "sbom_upload" now else s
         if shouldReset (old_row.map (fun q => q.project_scan_limit))
            new_row.project_scan_limit then resetCounter s1 o "project_scan" now
         else s1) := by
    unfold reset_usage_on_upgrade
    rw [if_neg (by simp [truthyN, ho, hp, hchange])]
    simp only [Option.getD_some, hfind]
  have memReset : ∀ (st : Store) (key : String) (u : UsageRow),
      u ∈ (resetCounter st o key now).usage_counters →
      u.organization_id = o → u.usage_key = key →
      u.used = 0 ∧ u.period_start = some (dayTrunc now)
        ∧ u.period_end = some (dayTrunc now + 86400) := by
    intro st key u hu horg hkey
    simp only [resetCounter, updateWhere] at hu
    rcases List.mem_map.mp hu with ⟨x, _, hfx⟩
    by_cases hpx : x.organization_id = o ∧ x.usage_key = key
    · rw [if_pos (by simp [hpx.1, hpx.2])] at hfx
      rw [← hfx]
      exact ⟨rfl, rfl, rfl⟩
    · rw [if_neg (by simpa using hpx)] at hfx
      subst hfx
      exact absurd ⟨horg, hkey⟩ hpx
  have memKeep : ∀ (st : Store) (key other : String), key ≠ other →
      (resetCounter st o other now).usage_counters.filter
          (fun u => u.organization_id = o ∧ u.usage_key = key)
        = st.usage_counters.filter
          (fun u => u.organization_id = o ∧ u.usage_key = key) := by
    intro st key other hne
    unfold resetCounter
    apply filter_updateWhere_disjoint
    · intro x
      rfl
    · intro x hx
      simp only [decide_eq_true_eq] at hx
      simp [hx.2, hne]
  set old_row := old_plan.bind fun op =>
    s.subscription_plans.find? (fun q => q.id = op) with hor
  refine ⟨?_, ?_, ?_, ?_⟩
  · intro hcond u hu horg hkey
    have hsr : shouldReset (old_row.map (fun q => q.sbom_limit)) new_row.sbom_limit
        = true := by
      rcases hcond with hnone | ⟨oldp, hsome, hlt⟩
      · rw [hnone]
        rfl
      · rw [hsome]
        simp [shouldReset, hlt]
    rw [hred] at hu
    simp only [hsr, eq_self_iff_true, if_true] at hu
    by_cases hsc : shouldReset (old_row.map (fun q => q.project_scan_limit))
        new_row.project_scan_limit = true
    · rw [if_pos hsc] at hu
      simp only [resetCounter, updateWhere] at hu
      rcases List.mem_map.mp hu with ⟨x, hx, hfx⟩
      by_cases hpx : x.organization_id = o ∧ x.usage_key = "project_scan"
      · rw [if_pos (by simp [hpx.1, hpx.2])] at hfx
        rw [← hfx] at hkey
        exact absurd hkey (by simp [hpx.2])
      · rw [if_neg (by simpa using hpx)] at hfx
        subst hfx
        exact memReset s "sbom_upload" x hx horg hkey
    · rw [if_neg hsc] at hu
      exact memReset s "sbom_upload" u hu horg hkey
  · intro hcond
    rcases hcond with ⟨oldp, hsome, hle⟩
    have hsr : shouldReset (old_row.map (fun q => q.sbom_limit)) new_row.sbom_limit
        = false := by
      rw [hsome]
      simp [shouldReset, not_lt.mpr hle]
    rw [hred]
    simp only [hsr, Bool.false_eq_true, if_false]
    by_cases hsc : shouldReset (old_row.map (fun q => q.project_scan_limit))
        new_row.project_scan_limit = true
    · rw [if_pos hsc]
      exact memKeep s "sbom_upload" "project_scan" (by decide)
    · rw [if_neg hsc]
  · intro hcond u hu horg hkey
    have hsr : shouldReset (old_row.map (fun q => q.project_scan_limit))
        new_row.project_scan_limit = true := by
      rcases hcond with hnone | ⟨oldp, hsome, hlt⟩
      · rw [hnone]
        rfl
      · rw [hsome]
        simp [shouldReset, hlt]
    rw [hred] at hu
    simp only [hsr, eq_self_iff_true, if_true] at hu
    exact memReset _ "project_scan" u hu horg hkey
  · intro hcond
    rcases hcond with ⟨oldp, hsome, hle⟩
    have hsc : shouldReset (old_row.map (fun q => q.project_scan_limit))
        new_row.project_scan_limit = false := by
      rw [hsome]
      simp [shouldReset, not_lt.mpr hle]
    rw [hred]
    simp only [hsc, Bool.false_eq_true, if_false]
    by_cases hsb : shouldReset (old_row.map (fun q => q.sbom_limit))
        new_row.sbom_limit = true
    · rw [if_pos hsb]
      exact memKeep s "project_scan" "sbom_upload" (by decide)
    · rw [if_neg hsb]

/-- A basic plan with sbom and scan limits of 10. -/
def planOld : PlanRow :=
  { id := 1, name := "basic", stripe_price_id_monthly := "pm1",
    stripe_price_id_yearly := "py1", sbom_limit := 10, project_scan_limit := 10,
    scan_rate_limit := 60, user_limit := 5, monthly_price_cents := 1000,
    annual_price_cents := 10000, currency := "usd", is_active := true }

/-- A pro plan raising only the sbom limit to 20. -/
def planNew : PlanRow :=
  { id := 2, name := "pro", stripe_price_id_monthly := "pm2",
    stripe_price_id_yearly := "py2", sbom_limit := 20, project_scan_limit := 10,
    scan_rate_limit := 60, user_limit := 5, monthly_price_cents := 2000,
    annual_price_cents := 20000, currency := "usd", is_active := true }

/-- A store with both plans and used counters for organization 3. -/
def storeUsage : Store :=
  { storeEmpty with
    subscription_plans := [planOld, planNew]
    usage_counters := [⟨3, "sbom_upload", 5, some 0, some 86400⟩,
                       ⟨3, "project_scan", 6, some 0, some 86400⟩] }

/-- C8 witness: upgrading organization 3 from the basic to the pro plan
resets the sbom counter to zero with the rolled window, and leaves the
project_scan counter untouched because its limit did not increase. -/
theorem usage_reset_on_plan_change_witness :
    ((⟨3, "sbom_upload", 0, some 86400, some 172800⟩ : UsageRow).used = 0
      ∧ (⟨3, "sbom_upload", 0, some 86400, some 172800⟩ : UsageRow).period_start
          = some (dayTrunc 100000)
      ∧ (⟨3, "sbom_upload", 0, some 86400, some 172800⟩ : UsageRow).period_end
          = some (dayTrunc 100000 + 86400))
    ∧ ((reset_usage_on_upgrade storeUsage (some 3) (some 1) (some 2)
          100000).usage_counters.filter
            (fun u => u.organization_id = 3 ∧ u.usage_key = "project_scan")
        = storeUsage.usage_counters.filter
            (fun u => u.organization_id = 3 ∧ u.usage_key = "project_scan")) :=
  ⟨(usage_reset_on_plan_change storeUsage 3 2 (some 1) 100000 planNew
      (by decide) (by decide) (by decide) (by decide)).1
      (Or.inr ⟨planOld, by decide, by decide⟩)
      ⟨3, "sbom_upload", 0, some 86400, some 172800⟩ (by decide) rfl rfl,
    (usage_reset_on_plan_change storeUsage 3 2 (some 1) 100000 planNew
      (by decide) (by decide) (by decide) (by decide)).2.2.2
      ⟨planOld, by decide, by decide⟩⟩

/-! ## C4: event idempotency

The handlers only ever append to tables other than billing_events after the
idempotency record, so the recorded event id survives the rest of the
request; these lemmas state that fact per write helper. -/

theorem be_link_org (s : Store) (o i : Nat) :
    (link_org_subscription s o i).billing_events = s.billing_events := rfl

theorem be_upsert_strong (s : Store) (a p : Option Nat) (st : String)
    (iv : Option String) (psid : String) (cps cpe : Option Int) :
    (upsert_subscription_strong s a p st iv psid cps cpe).1.billing_events
      = s.billing_events := by
  unfold upsert_subscription_strong
  split <;> rfl

theorem be_ensure_only (s : Store) (a p : Option Nat) (iv : Option String)
    (psid : String) :
    (ensure_subscription_exists_only s a p iv psid).1.billing_events
      = s.billing_events := by
  unfold ensure_subscription_exists_only
  split <;> rfl

theorem be_upd_pcid (s : Store) (i : Nat) (c : String) :
    (update_subscription_paddle_customer_id s i c).billing_events
      = s.billing_events := by
  unfold update_subscription_paddle_customer_id
  split <;> rfl

theorem be_upsert_inv_terminal (s : Store) (a b : Option Nat) (t : String)
    (pi : Option String) (st cu : String) (x y z : Int) (tr : Option ℚ)
    (ps pe : Option Int) :
    (upsert_invoice_terminal s a b t pi st cu x y z tr ps pe).billing_events
      = s.billing_events := by
  unfold upsert_invoice_terminal
  split <;> split <;> rfl

theorem be_upd_urls (s : Store) (t : String) (u : Option String) :
    (update_invoice_urls s t u).billing_events = s.billing_events := by
  unfold update_invoice_urls
  split <;> rfl

theorem be_stripe_inv_upsert (s : Store) (ex : InvoiceRow) :
    (stripe_invoice_upsert s ex).billing_events = s.billing_events := by
  unfold stripe_invoice_upsert
  split
  · split <;> rfl
  · rfl

theorem be_ensure_stripe (s : Store) (a : Option Nat) (c : Option String)
    (ssid : String) :
    (ensure_stripe_sub_exists s a c ssid).billing_events = s.billing_events := by
  unfold ensure_stripe_sub_exists
  split <;> rfl

theorem be_ensure_record (s : Store) (x y : Option String) :
    (ensure_subscription_record s x y).1.billing_events = s.billing_events := by
  unfold ensure_subscription_record
  repeat' first
    | rfl
    | ((try dsimp only); split)
  all_goals simp [be_ensure_stripe]

theorem be_apply_sd (env : ProviderEnv) (s : Store) (ssid : String)
    (sid : Option Nat) (a : Option Nat) (pl : StripeData) (ip ua : Option String) :
    (apply_scheduled_downgrade env s ssid sid a pl ip ua).1.billing_events
      = s.billing_events := by
  unfold apply_scheduled_downgrade
  repeat' first
    | rfl
    | ((try dsimp only); split)


theorem be_reset_usage (s : Store) (o op p : Option Nat) (now : Int) :
    (reset_usage_on_upgrade s o op p now).billing_events = s.billing_events := by
  unfold reset_usage_on_upgrade
  repeat' first
    | rfl
    | ((try dsimp only); split)

theorem be_update_block (env : ProviderEnv) (s : Store) (ety : String)
    (ssid : Option String) (sid a o op : Option Nat) :
    (stripe_update_block env s ety ssid sid a o op).1.billing_events
      = s.billing_events := by
  unfold stripe_update_block
  repeat' first
    | rfl
    | ((try dsimp only); split)
  all_goals simp [be_reset_usage, be_link_org]

theorem be_charge (env : ProviderEnv) (s : Store) (data : StripeData) :
    (stripe_charge_branch env s data).store.billing_events = s.billing_events := by
  unfold stripe_charge_branch
  dsimp only
  split
  · rfl
  · split
    · rfl
    · split <;> rfl

theorem be_checkout (s : Store) (data : StripeData) :
    (stripe_checkout_branch s data).store.billing_events = s.billing_events := by
  unfold stripe_checkout_branch
  dsimp only
  split
  · exact be_ensure_stripe _ _ _ _
  · rfl

theorem be_customer (env : ProviderEnv) (s : Store) (ety : String)
    (data : StripeData) (ip ua : Option String) :
    (stripe_customer_sub_branch env s ety data ip ua).store.billing_events
      = s.billing_events := by
  unfold stripe_customer_sub_branch
  dsimp only
  split
  · rw [be_apply_sd]
    exact be_ensure_record _ _ _
  · exact be_ensure_record _ _ _

theorem be_ite_inv_upsert (c : Prop) [Decidable c] (t : Store) (ex : InvoiceRow) :
    (if c then stripe_invoice_upsert t ex else t).billing_events = t.billing_events := by
  split
  · rw [be_stripe_inv_upsert]
  · rfl

theorem be_ite_ensure_pair (c : Prop) [Decidable c] (s : Store) (a : Option Nat)
    (cu : Option String) (ssid : String) (x y : Option Nat) :
    ((if c then (ensure_stripe_sub_exists s a cu ssid, x) else (s, y)) :
      Store × Option Nat).1.billing_events = s.billing_events := by
  split
  · exact be_ensure_stripe _ _ _ _
  · rfl

theorem be_invoice (s : Store) (data : StripeData) (tc tj : Option String) :
    (stripe_invoice_branch s data tc tj).store.billing_events = s.billing_events := by
  unfold stripe_invoice_branch
  dsimp only
  split <;> rw [be_ite_inv_upsert, be_ite_ensure_pair]

theorem be_dispatch (env : ProviderEnv) (s : Store) (ety : String)
    (data : StripeData) (tc tj ip ua : Option String) :
    (stripe_dispatch env s ety data tc tj ip ua).store.billing_events
      = s.billing_events := by
  unfold stripe_dispatch
  repeat' split
  all_goals first
    | rfl
    | exact be_charge env s data
    | exact be_checkout s data
    | exact be_customer env s ety data ip ua
    | exact be_invoice s data tc tj

theorem early_charge (env : ProviderEnv) (s : Store) (data : StripeData) :
    (stripe_charge_branch env s data).early = none
      ∨ (stripe_charge_branch env s data).early = some "ok" := by
  unfold stripe_charge_branch
  dsimp only
  split
  · exact Or.inr rfl
  · split
    · exact Or.inr rfl
    · split
      · exact Or.inr rfl
      · exact Or.inl rfl

theorem early_checkout (s : Store) (data : StripeData) :
    (stripe_checkout_branch s data).early = none := by
  unfold stripe_checkout_branch
  dsimp only
  split <;> rfl

theorem early_customer (env : ProviderEnv) (s : Store) (ety : String)
    (data : StripeData) (ip ua : Option String) :
    (stripe_customer_sub_branch env s ety data ip ua).early = none := by
  unfold stripe_customer_sub_branch
  dsimp only
  split <;> rfl

theorem early_invoice (s : Store) (data : StripeData) (tc tj : Option String) :
    (stripe_invoice_branch s data tc tj).early = none := by
  rfl

/-- The early response of the stripe dispatch, when present, is ok. -/
theorem early_dispatch_ok (env : ProviderEnv) (s : Store) (ety : String)
    (data : StripeData) (tc tj ip ua : Option String) :
    (stripe_dispatch env s ety data tc tj ip ua).early = none
      ∨ (stripe_dispatch env s ety data tc tj ip ua).early = some "ok" := by
  unfold stripe_dispatch
  repeat' split
  all_goals first
    | exact Or.inl rfl
    | exact early_charge env s data
    | exact Or.inl (early_checkout s data)
    | exact Or.inl (early_customer env s ety data ip ua)

theorem be_paddle_sub_branch (e : PaddleEvent) (a o p : Option Nat) (iv : String)
    (s : Store) :
    (paddle_sub_branch e a o p iv s).1.billing_events = s.billing_events := by
  unfold paddle_sub_branch
  repeat' first
    | rfl
    | ((try dsimp only); split)
  all_goals simp [be_link_org, be_upsert_strong]

theorem be_paddle_tx_branch (env : ProviderEnv) (e : PaddleEvent)
    (a o p : Option Nat) (iv : String) (s : Store) :
    (paddle_tx_branch env e a o p iv s).1.billing_events = s.billing_events := by
  unfold paddle_tx_branch
  repeat' first
    | rfl
    | ((try dsimp only); split)
  all_goals simp [be_link_org, be_ensure_only, be_upd_pcid, be_upsert_inv_terminal,
    be_upd_urls]

theorem be_addAudit (s : Store) (row : AuditRow) :
    (addAudit s row).billing_events = s.billing_events := rfl

theorem be_paddle_core (env : ProviderEnv) (e : PaddleEvent)
    (ip ua : Option String) (s : Store)
    (h1 : ¬ e.event_id = "") (h2 : ¬ e.event_type = "")
    (h3 : s.billing_events.contains e.event_id = false) :
    (paddle_webhook_core env e ip ua s).1.billing_events
      = e.event_id :: s.billing_events := by
  unfold paddle_webhook_core
  rw [if_neg h1, if_neg h2, if_neg (by simp only [h3]; exact Bool.false_ne_true)]
  dsimp only
  split
  · rfl
  · split
    · rw [be_paddle_sub_branch]
      rfl
    · split
      · rw [be_paddle_tx_branch]
        rfl
      · rfl

theorem paddle_core_second (env : ProviderEnv) (e : PaddleEvent)
    (ip ua : Option String) (s : Store)
    (h1 : ¬ e.event_id = "") (h2 : ¬ e.event_type = "")
    (h3 : s.billing_events.contains e.event_id = true) :
    paddle_webhook_core env e ip ua s = (s, [], Except.ok "already_processed") := by
  unfold paddle_webhook_core
  rw [if_neg h1, if_neg h2, if_pos h3]

theorem resp_paddle_sub (e : PaddleEvent) (a o p : Option Nat) (iv : String)
    (s : Store) :
    (paddle_sub_branch e a o p iv s).2.2 = Except.ok "ok" := by
  unfold paddle_sub_branch
  repeat' first
    | rfl
    | ((try dsimp only); split)

theorem resp_paddle_tx (env : ProviderEnv) (e : PaddleEvent) (a o p : Option Nat)
    (iv : String) (s : Store) :
    (paddle_tx_branch env e a o p iv s).2.2 = Except.ok "ok" := by
  unfold paddle_tx_branch
  repeat' first
    | rfl
    | ((try dsimp only); split)

theorem paddle_core_resp (env : ProviderEnv) (e : PaddleEvent)
    (ip ua : Option String) (s : Store)
    (h1 : ¬ e.event_id = "") (h2 : ¬ e.event_type = "")
    (h3 : s.billing_events.contains e.event_id = false) :
    (paddle_webhook_core env e ip ua s).2.2 = Except.ok "ok"
      ∨ ∃ err, (paddle_webhook_core env e ip ua s).2.2 = Except.error err := by
  unfold paddle_webhook_core
  rw [if_neg h1, if_neg h2, if_neg (by simp only [h3]; exact Bool.false_ne_true)]
  dsimp only
  split
  · exact Or.inr ⟨_, rfl⟩
  · split
    · exact Or.inl (resp_paddle_sub _ _ _ _ _ _)
    · split
      · exact Or.inl (resp_paddle_tx _ _ _ _ _ _ _)
      · exact Or.inl rfl

theorem be_stripe_core (env : ProviderEnv) (event_id ety : String)
    (data : StripeData) (tc tj ip ua : Option String) (s : Store)
    (h : s.billing_events.contains event_id = false) :
    (stripe_webhook_core env event_id ety data tc tj ip ua s).1.billing_events
      = event_id :: s.billing_events := by
  unfold stripe_webhook_core
  rw [if_neg (by simp only [h]; exact Bool.false_ne_true)]
  dsimp only
  split
  · rw [be_dispatch]
    rfl
  · rw [be_update_block, be_addAudit, be_dispatch]
    rfl

theorem stripe_core_second (env : ProviderEnv) (event_id ety : String)
    (data : StripeData) (tc tj ip ua : Option String) (s : Store)
    (h : s.billing_events.contains event_id = true) :
    stripe_webhook_core env event_id ety data tc tj ip ua s
      = (s, [], "already_processed") := by
  unfold stripe_webhook_core
  rw [if_pos h]

theorem stripe_core_resp (env : ProviderEnv) (event_id ety : String)
    (data : StripeData) (tc tj ip ua : Option String) (s : Store)
    (h : s.billing_events.contains event_id = false) :
    (stripe_webhook_core env event_id ety data tc tj ip ua s).2.2 = "success"
      ∨ (stripe_webhook_core env event_id ety data tc tj ip ua s).2.2 = "ok" := by
  unfold stripe_webhook_core
  rw [if_neg (by simp only [h]; exact Bool.false_ne_true)]
  dsimp only
  split
  · rename_i resp heq
    rcases early_dispatch_ok env (recordEvent event_id s) ety data tc tj ip ua
      with hn | ho
    · rw [hn] at heq
      cases heq
    · rw [ho] at heq
      injection heq with h4
      exact Or.inr h4.symm
  · exact Or.inl rfl

/-- A provider environment whose oracles all return nothing. -/
def envIdem : ProviderEnv :=
  { now := 0, pmRetrieveRes := fun _ => none, subRetrieveRes := fun _ => none,
    subModifyOk := false, subDeleteRes := fun _ => DeleteResult.otherFailure,
    refundCreateRes := fun _ _ => none, invoiceListPaidRes := fun _ => none,
    invoiceListAnyRes := fun _ => none, txDetailsRes := fun _ => none,
    pdfUrlRes := fun _ => none, hmacHex := fun _ _ => "" }

/-- A paddle transaction event whose custom-data actor has no stored
organization, so _resolve_org_id raises 404 after the event id was
recorded. -/
def evOrphan : PaddleEvent :=
  { event_id := "evt_orphan", event_type := "transaction.completed",
    data := {}, ctx := { actor_id := some 9 } }

/-- A paddle transaction event that processes successfully. -/
def evOk : PaddleEvent :=
  { event_id := "evt_ok", event_type := "transaction.completed",
    data := {}, ctx := {} }

/-- C4 counterexample: the first submission of a paddle event need not
yield a success response: when the organization lookup fails, the
endpoint raises 404 after the event id was already recorded, and the
second submission of the same event id then reports already_processed
even though the first call never succeeded. -/
theorem webhook_idempotency_claim_counterexample :
    (paddle_webhook_core envIdem evOrphan none none storeEmpty).2.2
        = Except.error ⟨404, "User organization not found"⟩
      ∧ (paddle_webhook_core envIdem evOrphan none none storeEmpty).1.billing_events
          = ["evt_orphan"]
      ∧ (paddle_webhook_core envIdem evOrphan none none
            (paddle_webhook_core envIdem evOrphan none none storeEmpty).1).2.2
          = Except.ok "already_processed" :=
  ⟨rfl, rfl, rfl⟩

/-- C4 (amended): for a not-yet-processed event id, the stripe webhook
core responds success (or the early ok of a no-op branch) and a second
submission of the same event id returns the store unchanged with an
already_processed response; the paddle webhook core likewise responds ok
unless it raises an error, and a second submission of the same event id
returns the store unchanged with an already_processed response.  The
second call short-circuits on the recorded event id, so the state after
both calls equals the state after one. -/
theorem webhook_idempotent (env : ProviderEnv) (event_id ety : String)
    (data : StripeData) (tc tj ip ua : Option String) (s : Store)
    (e : PaddleEvent) (pip pua : Option String) (q : Store)
    (hs : s.billing_events.contains event_id = false)
    (h1 : ¬ e.event_id = "") (h2 : ¬ e.event_type = "")
    (hq : q.billing_events.contains e.event_id = false) :
    ((stripe_webhook_core env event_id ety data tc tj ip ua s).2.2 = "success"
        ∨ (stripe_webhook_core env event_id ety data tc tj ip ua s).2.2 = "ok")
      ∧ stripe_webhook_core env event_id ety data tc tj ip ua
            (stripe_webhook_core env event_id ety data tc tj ip ua s).1
          = ((stripe_webhook_core env event_id ety data tc tj ip ua s).1, [],
              "already_processed")
      ∧ ((paddle_webhook_core env e pip pua q).2.2 = Except.ok "ok"
          ∨ ∃ err, (paddle_webhook_core env e pip pua q).2.2 = Except.error err)
      ∧ paddle_webhook_core env e pip pua (paddle_webhook_core env e pip pua q).1
          = ((paddle_webhook_core env e pip pua q).1, [],
              Except.ok "already_processed") := by
  refine ⟨stripe_core_resp env event_id ety data tc tj ip ua s hs, ?_,
    paddle_core_resp env e pip pua q h1 h2 hq, ?_⟩
  · apply stripe_core_second
    rw [be_stripe_core env event_id ety data tc tj ip ua s hs]
    simp
  · apply paddle_core_second env e pip pua _ h1 h2
    rw [be_paddle_core env e pip pua q h1 h2 hq]
    simp

/-- Witness: the amended idempotency theorem at a concrete stripe event
and a concrete paddle event on the empty store. -/
theorem webhook_idempotent_witness :
    storeEmpty.billing_events.contains "evt_s" = false
      ∧ (((stripe_webhook_core envIdem "evt_s" "payment_method.attached" {}
              none none none none storeEmpty).2.2 = "success"
            ∨ (stripe_webhook_core envIdem "evt_s" "payment_method.attached" {}
                none none none none storeEmpty).2.2 = "ok")
          ∧ stripe_webhook_core envIdem "evt_s" "payment_method.attached" {}
                none none none none
                (stripe_webhook_core envIdem "evt_s" "payment_method.attached" {}
                  none none none none storeEmpty).1
              = ((stripe_webhook_core envIdem "evt_s" "payment_method.attached" {}
                  none none none none storeEmpty).1, [], "already_processed")
          ∧ ((paddle_webhook_core envIdem evOk none none storeEmpty).2.2
                = Except.ok "ok"
              ∨ ∃ err, (paddle_webhook_core envIdem evOk none none storeEmpty).2.2
                  = Except.error err)
          ∧ paddle_webhook_core envIdem evOk none none
                (paddle_webhook_core envIdem evOk none none storeEmpty).1
              = ((paddle_webhook_core envIdem evOk none none storeEmpty).1, [],
                  Except.ok "already_processed")) :=
  ⟨rfl, webhook_idempotent envIdem "evt_s" "payment_method.attached" {}
    none none none none storeEmpty evOk none none storeEmpty
    rfl (by decide) (by decide) rfl⟩

end Billing
